import Mathlib

set_option maxHeartbeats 1000000
set_option maxRecDepth 4000

namespace EstudIA

/-! Shallow embedding of the EstudIA_Lambda repository (src/index.js and
src/mcp_bridge.js). JavaScript runtime values that flow through the code
are modelled by the inductive type `JVal`; JS numbers are modelled as
rationals (`Option Rat`, with `none` standing for NaN), which is exact for
every numeric literal and decimal string the claims exercise. -/

/-- JavaScript value model: undefined, null, booleans, numbers
(NaN modelled as `num none`), strings, arrays and plain objects. -/
inductive JVal where
  | undef : JVal
  | null : JVal
  | bool : Bool → JVal
  | num : Option Rat → JVal
  | str : String → JVal
  | arr : List JVal → JVal
  | obj : List (String × JVal) → JVal

/-- Parameter bags and event objects are JS objects, modelled as
association lists of fields; for duplicate keys the later entry wins,
matching object spread semantics. -/
abbrev Bag := List (String × JVal)

/-- Field lookup in an object field list: the later entry for a key wins
(object spread override semantics); a missing key reads as undefined. -/
def getB (bag : Bag) (k : String) : JVal :=
  (bag.foldl (fun acc p => if p.1 = k then some p.2 else acc) none).getD (.undef)

/-- JS truthiness: undefined, null, false, 0, NaN and the empty string are
falsy; every other value (including all arrays and objects) is truthy. -/
def truthy : JVal → Bool
  | .undef => false
  | .null => false
  | .bool b => b
  | .num none => false
  | .num (some q) => decide (q ≠ 0)
  | .str s => decide (s ≠ "")
  | .arr _ => true
  | .obj _ => true

/-- Test for a string value. -/
def isStr : JVal → Bool
  | .str _ => true
  | _ => false

/-- Test for the undefined value. -/
def isUndef : JVal → Bool
  | .undef => true
  | _ => false

/-- Test for an object value. -/
def isObj : JVal → Bool
  | .obj _ => true
  | _ => false

/-- Property read on a value already known not to be nullish: objects look
the field up, primitives and arrays yield undefined (none of the fields the
code reads is a built-in property of those). -/
def fieldD : JVal → String → JVal
  | .obj fs, k => getB fs k
  | _, _ => (.undef)

/-- JS property access `v.k`: throws a TypeError on null or undefined,
otherwise reads the field as in `fieldD`. -/
def jsGetF : JVal → String → Except String JVal
  | .null, k => .error ("Cannot read properties of null (reading \x27" ++ k ++ "\x27)")
  | .undef, k => .error ("Cannot read properties of undefined (reading \x27" ++ k ++ "\x27)")
  | v, k => .ok (fieldD v k)

/-- Optional chaining `v?.k`: yields undefined when `v` is nullish,
otherwise a plain (non-throwing) property read. -/
def optGet (v : JVal) (k : String) : JVal :=
  match v with
  | .null => .undef
  | .undef => .undef
  | w => fieldD w k

/-- JS logical or `a || b`: the first operand if truthy, else the second. -/
def jsOr (a b : JVal) : JVal := if truthy a then a else b

/-- Strict equality `v === s` against a string literal. -/
def jsStrictEqStr (v : JVal) (s : String) : Bool :=
  match v with
  | .str t => decide (t = s)
  | _ => false

/-- Strict equality `v === q` against a number literal; NaN compares
unequal to everything. -/
def jsStrictEqNum (v : JVal) (q : Rat) : Bool :=
  match v with
  | .num (some r) => decide (r = q)
  | _ => false

/-- Object spread `{...v}`: objects contribute their fields, strings and
arrays contribute index-keyed entries, primitives contribute nothing. -/
def spreadEntries : JVal → Bag
  | .obj fs => fs
  | .str s => s.toList.enum.map (fun p => (Nat.repr p.1, .str (String.singleton p.2)))
  | .arr xs => xs.enum.map (fun p => (Nat.repr p.1, p.2))
  | _ => []

/-! String helpers, implemented over character lists so that concrete
evaluation reduces well in the kernel. -/

/-- Whitespace recognized by trimming and JSON parsing. -/
def isWsChar (c : Char) : Bool :=
  c = ' ' || c = '\t' || c = '\n' || c = '\r'

/-- Drop leading whitespace characters. -/
def dropWs (cs : List Char) : List Char := cs.dropWhile isWsChar

/-- Trim whitespace from both ends of a string (model of `String.trim` in
JS). -/
def jTrim (s : String) : String :=
  ((dropWs s.toList).reverse.dropWhile isWsChar).reverse.asString

/-- Substring search on character lists. -/
def containsSubList : List Char → List Char → Bool
  | [], pat => pat.isEmpty
  | c :: rest, pat => pat.isPrefixOf (c :: rest) || containsSubList rest pat

/-- Model of `String.includes`. -/
def containsSub (s pat : String) : Bool := containsSubList s.toList pat.toList

/-- Split a character list on a separator character. -/
def splitListOn (sep : Char) : List Char → List (List Char)
  | [] => [[]]
  | c :: rest =>
    let r := splitListOn sep rest
    if c = sep then [] :: r
    else match r with
      | [] => [[c]]
      | l :: ls => (c :: l) :: ls

/-- Model of `s.split("\n")`. -/
def splitLines (s : String) : List String :=
  (splitListOn '\n' s.toList).map List.asString

/-- Model of `s.startsWith p`. -/
def startsWithStr (s p : String) : Bool := p.toList.isPrefixOf s.toList

/-- Model of `s.substring(n)` (drop the first n characters). -/
def dropStr (s : String) (n : Nat) : String := (s.toList.drop n).asString

/-- Model of `s.substring(0, n)` (take the first n characters). -/
def takeStr (s : String) (n : Nat) : String := (s.toList.take n).asString

/-- Model of `s.length` (character count; the JS UTF-16 unit count agrees
on the ASCII and Latin strings the code handles). -/
def lenStr (s : String) : Nat := s.toList.length

/-- Model of `s.toLowerCase()` for the ASCII strings the code compares. -/
def lowerStr (s : String) : String := (s.toList.map Char.toLower).asString

/-- Model of `path.replace(/\/$/, "")`: remove one trailing slash. -/
def stripTrailingSlash (s : String) : String :=
  match s.toList.reverse with
  | '/' :: rest => rest.reverse.asString
  | _ => s

/-! Model of the JSON.parse builtin: a fuelled recursive-descent parser
producing a `JVal` (never `undef`). -/

/-- Hexadecimal value of one character. -/
def hexVal (x : Char) : Option Nat :=
  if '0' ≤ x ∧ x ≤ '9' then some (x.toNat - '0'.toNat)
  else if 'a' ≤ x ∧ x ≤ 'f' then some (x.toNat - 'a'.toNat + 10)
  else if 'A' ≤ x ∧ x ≤ 'F' then some (x.toNat - 'A'.toNat + 10)
  else none

/-- Escape character named by a JSON backslash escape, when simple. -/
def escOf (e : Char) : Option Char :=
  if e = '"' then some '"'
  else if e = '\\' then some '\\'
  else if e = '/' then some '/'
  else if e = 'b' then some (Char.ofNat 8)
  else if e = 'f' then some (Char.ofNat 12)
  else if e = 'n' then some '\n'
  else if e = 'r' then some '\r'
  else if e = 't' then some '\t'
  else none

/-- Parse the characters of a JSON string literal after the opening quote;
returns the decoded string and the rest of the input. -/
def parseStrChars : List Char → Option (List Char × List Char)
  | [] => none
  | '"' :: rest => some ([], rest)
  | '\\' :: 'u' :: a :: b :: c :: d :: rs =>
    (match hexVal a, hexVal b, hexVal c, hexVal d with
     | some na, some nb, some nc, some nd =>
       (parseStrChars rs).map
         (fun p => (Char.ofNat (((na * 16 + nb) * 16 + nc) * 16 + nd) :: p.1, p.2))
     | _, _, _, _ => none)
  | '\\' :: e :: rest =>
    (match escOf e with
     | some c => (parseStrChars rest).map (fun p => (c :: p.1, p.2))
     | none => none)
  | c :: rest =>
    if c.toNat < 32 then none
    else (parseStrChars rest).map (fun p => (c :: p.1, p.2))

/-- Take a maximal run of decimal digits. -/
def takeDigits (cs : List Char) : List Char × List Char :=
  (cs.takeWhile Char.isDigit, cs.dropWhile Char.isDigit)

/-- Numeric value of a digit run. -/
def digitsToNat (ds : List Char) : Nat :=
  ds.foldl (fun acc c => acc * 10 + (c.toNat - '0'.toNat)) 0

/-- Rational value of a decoded decimal number: sign, integer digits,
fraction digits (with their count) and a decimal exponent. -/
def ratOfParts (neg : Bool) (ip frac fracLen : Nat) (e : Int) : Rat :=
  let m : Nat := ip * 10 ^ fracLen + frac
  let mz : Int := if neg then -(m : Int) else (m : Int)
  if 0 ≤ e then mkRat (mz * ((10 ^ e.toNat : Nat) : Int)) (10 ^ fracLen)
  else mkRat mz (10 ^ fracLen * 10 ^ (-e).toNat)

/-- Parse a JSON number (strict grammar: optional minus, integer part
without leading zeros, optional fraction, optional exponent). -/
def parseJsonNum (cs : List Char) : Option (Rat × List Char) :=
  let (neg, cs1) := match cs with
    | '-' :: rest => (true, rest)
    | _ => (false, cs)
  let (ip, cs2) := takeDigits cs1
  if ip.isEmpty then none
  else if ip.length > 1 ∧ ip.headD '0' = '0' then none
  else
    let (fp, cs3) := match cs2 with
      | '.' :: rest =>
        let (ds, r) := takeDigits rest
        (some ds, r)
      | _ => (none, cs2)
    match fp with
    | some [] => none
    | _ =>
      let (ex, cs4) : Option Int × List Char := match cs3 with
        | 'e' :: rest | 'E' :: rest =>
          let (sgn, r1) : Bool × List Char := match rest with
            | '+' :: r => (false, r)
            | '-' :: r => (true, r)
            | _ => (false, rest)
          let (ds, r2) := takeDigits r1
          if ds.isEmpty then (none, cs3)
          else (some (if sgn then -(digitsToNat ds : Int) else (digitsToNat ds : Int)), r2)
        | _ => (some 0, cs3)
      match ex with
      | none => none
      | some e =>
        let frac := fp.getD []
        some (ratOfParts neg (digitsToNat ip) (digitsToNat frac) frac.length e, cs4)

/-- Parse a comma-separated list of items with a given item parser and
closing character; used for arrays and objects. -/
def parseItems {α : Type} (item : List Char → Option (α × List Char)) (close : Char) :
    Nat → List Char → Option (List α × List Char)
  | 0, _ => none
  | Nat.succ fuel, cs =>
    match item cs with
    | none => none
    | some (x, rest) =>
      match dropWs rest with
      | ',' :: rest2 =>
        (parseItems item close fuel (dropWs rest2)).map (fun p => (x :: p.1, p.2))
      | c :: rest2 => if c = close then some ([x], rest2) else none
      | [] => none

/-- Parse one JSON value; fuel bounds the nesting and item count. -/
def parseJsonVal : Nat → List Char → Option (JVal × List Char)
  | 0, _ => none
  | Nat.succ fuel, cs =>
    match dropWs cs with
    | 'n' :: 'u' :: 'l' :: 'l' :: rest => some (.null, rest)
    | 't' :: 'r' :: 'u' :: 'e' :: rest => some (.bool true, rest)
    | 'f' :: 'a' :: 'l' :: 's' :: 'e' :: rest => some (.bool false, rest)
    | '"' :: rest => (parseStrChars rest).map (fun p => (.str p.1.asString, p.2))
    | '[' :: rest =>
      (match dropWs rest with
       | ']' :: rest2 => some (.arr [], rest2)
       | cs2 => (parseItems (parseJsonVal fuel) ']' (Nat.succ fuel) cs2).map
           (fun p => (.arr p.1, p.2)))
    | '{' :: rest =>
      let field (fcs : List Char) : Option ((String × JVal) × List Char) :=
        match dropWs fcs with
        | '"' :: r1 =>
          match parseStrChars r1 with
          | none => none
          | some (key, r2) =>
            match dropWs r2 with
            | ':' :: r3 =>
              (parseJsonVal fuel (dropWs r3)).map (fun p => ((key.asString, p.1), p.2))
            | _ => none
        | _ => none
      (match dropWs rest with
       | '}' :: rest2 => some (.obj [], rest2)
       | cs2 => (parseItems field '}' (Nat.succ fuel) cs2).map (fun p => (.obj p.1, p.2)))
    | cs2 => (parseJsonNum cs2).map (fun p => (.num (some p.1), p.2))

/-- Model of `JSON.parse`: parse a complete JSON document; `none` models
the SyntaxError throw. -/
def jsonParse (s : String) : Option JVal :=
  match parseJsonVal (s.length + 1) s.toList with
  | some (v, rest) => if (dropWs rest).isEmpty then some v else none
  | none => none

/-! Model of the JSON.stringify builtin (for the values the code
serializes: parsed backend bodies and request envelopes). -/

/-- Exponents of a prime factor in a natural number (fuelled). -/
def factorCount (p : Nat) : Nat → Nat → Nat
  | 0, _ => 0
  | Nat.succ fuel, n =>
    if n % p = 0 ∧ n ≠ 0 then factorCount p fuel (n / p) + 1 else 0

/-- Decimal rendering of a rational whose denominator divides a power of
ten, matching how JS prints such numbers; other denominators (never hit by
the claims) fall back to a fraction rendering. -/
def ratToDec (q : Rat) : String :=
  if q.den = 1 then (if q.num < 0 then "-" ++ Nat.repr q.num.natAbs else Nat.repr q.num.natAbs)
  else
    let a := factorCount 2 q.den q.den
    let b := factorCount 5 q.den q.den
    if q.den = 2 ^ a * 5 ^ b then
      let k := max a b
      let n := q.num.natAbs * (2 ^ (k - a)) * (5 ^ (k - b))
      let ds := Nat.repr n
      let ds := if ds.length ≤ k then String.mk (List.replicate (k + 1 - ds.length) '0') ++ ds else ds
      let cut := ds.toList.length - k
      (if q.num < 0 then "-" else "") ++ (ds.toList.take cut).asString ++ "." ++ (ds.toList.drop cut).asString
    else Int.repr q.num ++ "/" ++ Nat.repr q.den

/-- Escape one character for a JSON string literal. -/
def escChar (c : Char) : List Char :=
  if c = '"' then ['\\', '"']
  else if c = '\\' then ['\\', '\\']
  else if c = '\n' then ['\\', 'n']
  else if c = '\r' then ['\\', 'r']
  else if c = '\t' then ['\\', 't']
  else if c = Char.ofNat 8 then ['\\', 'b']
  else if c = Char.ofNat 12 then ['\\', 'f']
  else [c]

/-- Quote and escape a string for JSON output. -/
def quoteJson (s : String) : String :=
  "\"" ++ (s.toList.map escChar).flatten.asString ++ "\""

mutual

/-- Model of `JSON.stringify` on a value: NaN prints as null, undefined
object fields are dropped, undefined array entries print as null. -/
def stringifyV : JVal → String
  | .undef => "undefined"
  | .null => "null"
  | .bool b => if b then "true" else "false"
  | .num none => "null"
  | .num (some q) => ratToDec q
  | .str s => quoteJson s
  | .arr xs => "[" ++ stringifyArr xs ++ "]"
  | .obj fs => "\x7b" ++ stringifyFields fs ++ "\x7d"

/-- Serialize array elements, comma separated. -/
def stringifyArr : List JVal → String
  | [] => ""
  | [x] => (match x with | .undef => "null" | v => stringifyV v)
  | x :: rest => (match x with | .undef => "null" | v => stringifyV v) ++ "," ++ stringifyArr rest

/-- Serialize object fields, dropping undefined-valued ones. -/
def stringifyFields : List (String × JVal) → String
  | [] => ""
  | (_, .undef) :: rest => stringifyFields rest
  | (k, v) :: rest =>
    let tail := stringifyFields rest
    quoteJson k ++ ":" ++ stringifyV v ++ (if tail = "" then "" else ",") ++ tail

end

/-- Model of `JSON.stringify` at the top level (a bare undefined only ever
reaches it inside template literals, where it prints as the text
undefined). -/
def jsonStringify (v : JVal) : String := stringifyV v

/-! Models of the Number.parseInt and Number.parseFloat builtins as the
code applies them to parameter-bag values. Both builtins first coerce
their argument to a string (ToString), so arrays join their elements with
commas and objects read as [object Object]. -/

/-- Truncation of a rational toward zero (how parseInt reads a number that
prints without an exponent, which covers every magnitude the code
handles). -/
def ratTrunc (q : Rat) : Int := if q < 0 then q.ceil else q.floor

mutual

/-- Model of the JS ToString coercion on a runtime value: arrays join
their stringified elements with commas (Array.prototype.toString) and
objects print as [object Object]. -/
def jsToString : JVal → String
  | .undef => "undefined"
  | .null => "null"
  | .bool b => if b then "true" else "false"
  | .num none => "NaN"
  | .num (some q) => ratToDec q
  | .str s => s
  | .arr xs => jsToStringList xs
  | .obj _ => "[object Object]"

/-- Comma-joined element list of Array.prototype.toString; undefined and
null elements print as the empty string. -/
def jsToStringList : List JVal → String
  | [] => ""
  | x :: rest =>
    (match x with | .undef => "" | .null => "" | _ => jsToString x) ++
    (if rest.isEmpty then "" else ",") ++ jsToStringList rest

end

/-- Optional leading sign. -/
def takeSign (cs : List Char) : Bool × List Char :=
  match cs with
  | '-' :: rest => (true, rest)
  | '+' :: rest => (false, rest)
  | _ => (false, cs)

/-- Maximal hexadecimal-digit prefix. -/
def takeHexDigits (cs : List Char) : List Char × List Char :=
  match cs with
  | c :: rest =>
    if (hexVal c).isSome then
      let (ds, rs) := takeHexDigits rest
      (c :: ds, rs)
    else ([], cs)
  | [] => ([], [])

/-- Numeric value of a list of hexadecimal digits. -/
def hexDigitsToNat (ds : List Char) : Nat :=
  ds.foldl (fun acc c => acc * 16 + (hexVal c).getD 0) 0

/-- Model of `parseInt` on a string (radix argument omitted, as in the
code): leading whitespace, an optional sign, then either a 0x/0X prefix
followed by a maximal hexadecimal-digit prefix or a maximal decimal-digit
prefix; NaN (`none`) when no digit is found. -/
def parseIntChars (cs : List Char) : Option Int :=
  let (neg, cs1) := takeSign (dropWs cs)
  let core : Option Nat :=
    match cs1 with
    | '0' :: 'x' :: rest | '0' :: 'X' :: rest =>
      let (hs, _) := takeHexDigits rest
      if hs.isEmpty then none else some (hexDigitsToNat hs)
    | _ =>
      let (ds, _) := takeDigits cs1
      if ds.isEmpty then none else some (digitsToNat ds)
  core.map (fun n => if neg then -(n : Int) else (n : Int))

/-- Model of `parseFloat` on a string: leading whitespace, optional sign,
a lenient decimal prefix (digits, optional fraction, optional exponent);
NaN when no mantissa digit is found. -/
def parseFloatChars (cs : List Char) : Option Rat :=
  let (neg, cs1) := takeSign (dropWs cs)
  let (ip, cs2) := takeDigits cs1
  let (fr, cs3) := match cs2 with
    | '.' :: r => takeDigits r
    | _ => ([], cs2)
  if ip.isEmpty ∧ fr.isEmpty then none
  else
    let e : Int := match cs3 with
      | 'e' :: r | 'E' :: r =>
        let (sgn, r1) := takeSign r
        let (ds, _) := takeDigits r1
        if ds.isEmpty then 0
        else if sgn then -(digitsToNat ds : Int) else (digitsToNat ds : Int)
      | _ => 0
    some (ratOfParts neg (digitsToNat ip) (digitsToNat fr) fr.length e)

/-- Model of `parseInt(v)` on a runtime value: every value goes through
the ToString coercion and the string prefix parse; a number shortcuts to
truncation toward zero, which agrees with parsing its decimal printing
for every value the bags can carry (their denominators divide powers of
ten) and stays faithful on non-decimal rationals, where the printing
fallback would not. -/
def parseIntJ : JVal → Option Int
  | .num none => none
  | .num (some q) => some (ratTrunc q)
  | v => parseIntChars (jsToString v).toList

/-- Model of `parseFloat(v)` on a runtime value: ToString coercion then
the lenient prefix parse; a number reparses to itself. -/
def parseFloatJ : JVal → Option Rat
  | .num none => none
  | .num (some q) => some q
  | v => parseFloatChars (jsToString v).toList

/-! Transport model for src/mcp_bridge.js. The backend (network plus MCP
server) is an oracle mapping an outgoing HTTP request to either a
transport error (promise rejection) or a raw response; `makeHttpRequest`
then applies the body-parsing policy of its end handler. -/

/-- An outgoing HTTP request as `makeHttpRequest` assembles it; the body
is kept in value form (the source serializes it on the wire). -/
structure HttpReq where
  url : String
  method : String
  headers : List (String × String)
  body : Option JVal

/-- A raw backend response: status code, headers and the accumulated body
text. -/
structure RawResp where
  statusCode : Nat
  headers : List (String × String)
  data : String

/-- The resolved value of `makeHttpRequest`: status code, headers and a
parsed (or raw text) body. -/
structure HttpResp where
  statusCode : Nat
  headers : List (String × String)
  body : JVal

/-- Ambient execution environment: the backend oracle, the
`MCP_SERVER_URL` and `NODE_ENV` environment variables, the current time
(for `Date.now()` and `new Date().toISOString()`), and the stack text a
thrown error would carry. -/
structure Env where
  backend : HttpReq → Except String RawResp
  mcpEnvUrl : Option String
  nowMs : Nat
  nowIso : String
  nodeEnv : Option String
  stackOf : String → String

/-- Module-level `MCP_SERVER_URL = process.env.MCP_SERVER_URL || ""` of
src/mcp_bridge.js. -/
def mcpServerUrl (env : Env) : String := env.mcpEnvUrl.getD ""

/-- Read the content-type response header (node lowercases header names);
absent means the empty string. -/
def contentTypeOf (hs : List (String × String)) : String :=
  ((hs.foldl (fun acc p => if p.1 = "content-type" then some p.2 else acc) none)).getD ""

/-- First SSE data line of a frame: scan the lines for the first one
starting with the literal prefix and drop that prefix; the loop variable
starts as the empty string (src/mcp_bridge.js lines 46-54). -/
def firstDataLine (lines : List String) : String :=
  ((lines.find? (fun l => startsWithStr l "data: ")).map (fun l => dropStr l 6)).getD ""

/-- Body-parsing policy of the `makeHttpRequest` end handler
(src/mcp_bridge.js lines 40-80), generic in the JSON parser: on an
event-stream content type take the first data line if nonempty and parse
it, any parse failure anywhere lands in the catch, which resolves with the
raw text. -/
def processBody (jp : String → Option JVal) (contentType data : String) : JVal :=
  if containsSub contentType "text/event-stream" then
    if firstDataLine (splitLines (jTrim data)) ≠ "" then
      match jp (firstDataLine (splitLines (jTrim data))) with
      | some v => v
      | none => .str data
    else
      match jp data with
      | some v => v
      | none => .str data
  else
    match jp data with
    | some v => v
    | none => .str data

/-- Default request headers of `makeHttpRequest`, overridable by the
caller-supplied ones (src/mcp_bridge.js lines 25-30). -/
def defaultHeaders : List (String × String) :=
  [("Content-Type", "application/json"),
   ("Accept", "application/json, text/event-stream"),
   ("User-Agent", "FiscAI-Lambda-Bridge")]

/-- Caller options of `makeHttpRequest`. -/
structure ReqOptions where
  method : String
  headers : List (String × String)
  body : Option JVal

/-- Assemble the outgoing request from a URL and options. -/
def buildReq (url : String) (opts : ReqOptions) : HttpReq :=
  { url := url, method := opts.method, headers := defaultHeaders ++ opts.headers,
    body := opts.body }

/-- Perform an assembled request against the backend oracle and parse the
response body; a transport error is the promise rejection. -/
def performReq (env : Env) (req : HttpReq) : Except String HttpResp :=
  match env.backend req with
  | .error e => .error e
  | .ok raw =>
    .ok { statusCode := raw.statusCode, headers := raw.headers,
          body := processBody jsonParse (contentTypeOf raw.headers) raw.data }

/-- Model of `makeHttpRequest(url, options)`. -/
def makeHttpRequest (env : Env) (url : String) (opts : ReqOptions) : Except String HttpResp :=
  performReq env (buildReq url opts)

/-- The JSON-RPC envelope `callMcpTool` builds (src/mcp_bridge.js lines
104-112). -/
def mcpEnvelope (env : Env) (toolName : String) (toolArgs : JVal) : JVal :=
  .obj [("jsonrpc", .str "2.0"),
        ("id", .str ("call-" ++ Nat.repr env.nowMs)),
        ("method", .str "tools/call"),
        ("params", .obj [("name", .str toolName), ("arguments", toolArgs)])]

/-- The request `callMcpTool` sends to the `/mcp` endpoint. -/
def mcpHttpReq (env : Env) (toolName : String) (toolArgs : JVal) : HttpReq :=
  buildReq (mcpServerUrl env ++ "/mcp")
    { method := "POST", body := some (mcpEnvelope env toolName toolArgs),
      headers := [("Accept", "application/json, text/event-stream"),
                  ("Content-Type", "application/json")] }

/-- The request `callMcpAlternative` sends to the REST-like endpoint
(src/mcp_bridge.js lines 153-166). -/
def altHttpReq (env : Env) (toolName : String) (toolArgs : JVal) : HttpReq :=
  buildReq (mcpServerUrl env ++ "/tools/" ++ toolName ++ "/call")
    { method := "POST", body := some toolArgs,
      headers := [("Accept", "application/json"), ("Content-Type", "application/json")] }

/-- Result of a tool call together with the trace of HTTP requests it
issued, in order (the trace instruments the embedding; the source performs
those requests as side effects). -/
structure CallOut where
  result : Except String JVal
  trace : List HttpReq

/-- Model of `callMcpAlternative` (src/mcp_bridge.js lines 153-173): POST
the raw tool arguments, return the body on HTTP 200, throw otherwise. -/
def callMcpAlternative (env : Env) (toolName : String) (toolArgs : JVal) : CallOut :=
  let req := altHttpReq env toolName toolArgs
  match performReq env req with
  | .error e => { result := .error e, trace := [req] }
  | .ok resp =>
    if resp.statusCode = 200 then { result := .ok resp.body, trace := [req] }
    else { result := .error ("Error en método alternativo: " ++ jsonStringify resp.body),
           trace := [req] }

/-- Model of `callMcpTool` (src/mcp_bridge.js lines 97-148): send the
JSON-RPC envelope; on 200 unwrap a truthy `result` field; on a JSON-RPC
error with code -32600 retry once through `callMcpAlternative`; all
internal throws (including property reads on a nullish body) are caught
and rewrapped by the outer catch. -/
def callMcpTool (env : Env) (toolName : String) (toolArgs : JVal) : CallOut :=
  let req := mcpHttpReq env toolName toolArgs
  let inner : Except String JVal × List HttpReq :=
    match performReq env req with
    | .error e => (.error e, [req])
    | .ok resp =>
      if resp.statusCode = 200 then
        match jsGetF resp.body "result" with
        | .error e => (.error e, [req])
        | .ok r => if truthy r then (.ok r, [req]) else (.ok resp.body, [req])
      else
        match jsGetF resp.body "error" with
        | .error e => (.error e, [req])
        | .ok errv =>
          if truthy errv then
            if jsStrictEqNum (fieldD errv "code") (-32600) then
              let alt := callMcpAlternative env toolName toolArgs
              (alt.result, req :: alt.trace)
            else (.error ("Error MCP: " ++ jsonStringify resp.body), [req])
          else (.error ("Error MCP: " ++ jsonStringify resp.body), [req])
  match inner.1 with
  | .ok v => { result := .ok v, trace := inner.2 }
  | .error e => { result := .error ("Error conectando con MCP: " ++ e), trace := inner.2 }

/-! The twelve exported handlers of src/mcp_bridge.js. Each takes the
ambient environment and a parameter bag and yields either a thrown error
(`Except.error`, an exception escaping the handler) or a
`{statusCode, body}` response, together with the trace of HTTP requests
made. -/

/-- A handler response as the source returns it: status code and a body
value. -/
structure Response where
  statusCode : Nat
  body : JVal

/-- A handler outcome: the returned response or an escaped exception,
plus the HTTP request trace. -/
structure HandlerOut where
  result : Except String Response
  trace : List HttpReq

/-- Build a returned response with an empty trace (validation paths). -/
def retNoCall (status : Nat) (body : JVal) : HandlerOut :=
  { result := .ok { statusCode := status, body := body }, trace := [] }

/-- Message of the TypeError thrown by `v.trim()` on a non-string. -/
def trimNotFn (name : String) : String := name ++ ".trim is not a function"

/-- Evaluation of the guard `!v || !v.trim()` used for required string
parameters: `ok none` when the guard is taken (missing or blank),
`ok (some s)` with the validated string otherwise, and an error when a
truthy non-string reaches `.trim()` (a TypeError escaping the handler). -/
def jsMissingOrBlank (name : String) (v : JVal) : Except String (Option String) :=
  if truthy v = false then .ok none
  else match v with
    | .str s => if jTrim s = "" then .ok none else .ok (some s)
    | _ => .error (trimNotFn name)

/-- Destructuring with a default value, applied only when the field reads
as undefined. -/
def getBD (bag : Bag) (k : String) (d : JVal) : JVal :=
  match getB bag k with
  | .undef => d
  | v => v

/-- Model of `s.substring(0, n) + (s.length > n ? "..." : "")`. -/
def previewStr (s : String) (n : Nat) : String :=
  takeStr s n ++ (if lenStr s > n then "..." else "")

/-- Test for an array value (model of `Array.isArray`). -/
def isArr : JVal → Bool
  | .arr _ => true
  | _ => false

/-- Shared try/catch tail of every handler: run the tool call, render a
success response from its result or a 500 response from the caught error;
the trace is the call's trace either way. -/
def wrapCall (call : CallOut) (onOk : JVal → Response) (onErr : String → Response) : HandlerOut :=
  match call.result with
  | .ok v => { result := .ok (onOk v), trace := call.trace }
  | .error e => { result := .ok (onErr e), trace := call.trace }

/-- Handler for get_fiscal_advice (src/mcp_bridge.js lines 181-233). Its
guard is plain truthiness (no trim), its 400 body has no hint, and its
500 body has no hint. -/
def handleMcpFiscalAdvice (env : Env) (params : Bag) : HandlerOut :=
  let actividad := getB params "actividad"
  if truthy actividad = false then
    retNoCall 400 (.obj
      [("error", .str "Falta el parámetro \"actividad\""),
       ("required", .arr [.str "actividad"]),
       ("optional", .arr [.str "ingresos_anuales", .str "estado", .str "regimen_actual",
                          .str "tiene_rfc", .str "contexto_adicional"])])
  else
    wrapCall (callMcpTool env "get_fiscal_advice" (.obj
      [("request", .obj
        [("actividad", actividad),
         ("ingresos_anuales", getB params "ingresos_anuales"),
         ("estado", getB params "estado"),
         ("regimen_actual", getB params "regimen_actual"),
         ("tiene_rfc", getB params "tiene_rfc"),
         ("contexto_adicional", getB params "contexto_adicional")])]))
      (fun result => { statusCode := 200, body := (.obj
        [("success", .bool true), ("data", result), ("source", .str "mcp_server"),
         ("timestamp", .str env.nowIso)]) })
      (fun e => { statusCode := 500, body := (.obj
        [("error", .str e), ("timestamp", .str env.nowIso)]) })

/-- Handler for generate_embedding (src/mcp_bridge.js lines 238-286). -/
def handleMcpGenerateEmbedding (env : Env) (params : Bag) : HandlerOut :=
  match jsMissingOrBlank "text" (getB params "text") with
  | .error e => { result := .error e, trace := [] }
  | .ok none => retNoCall 400 (.obj
      [("error", .str "Falta el parámetro \"text\" o está vacío"),
       ("required", .arr [.str "text"]),
       ("hint", .str "El texto no puede estar vacío para generar el embedding")])
  | .ok (some text) =>
    wrapCall (callMcpTool env "generate_embedding" (.obj [("text", .str text)]))
      (fun result => { statusCode := 200, body := (.obj
        [("success", .bool true), ("data", result), ("source", .str "mcp_server"),
         ("timestamp", .str env.nowIso),
         ("metadata", .obj
           [("text_length", .num (some (mkRat (lenStr text) 1))),
            ("text_preview", .str (previewStr text 100))])]) })
      (fun e => { statusCode := 500, body := (.obj
        [("error", .str e), ("timestamp", .str env.nowIso),
         ("hint", .str "Verifica que el servidor MCP esté funcionando y que la API de Gemini esté configurada correctamente")]) })

/-- Handler for store_document (src/mcp_bridge.js lines 291-343); exported
but not routed by the entry point. -/
def handleMcpStoreDocument (env : Env) (params : Bag) : HandlerOut :=
  let classroom_id := getB params "classroom_id"
  match jsMissingOrBlank "text" (getB params "text") with
  | .error e => { result := .error e, trace := [] }
  | .ok none => retNoCall 400 (.obj
      [("error", .str "Falta el parámetro \"text\" o está vacío"),
       ("required", .arr [.str "text"]),
       ("optional", .arr [.str "classroom_id"]),
       ("hint", .str "El texto del documento no puede estar vacío")])
  | .ok (some text) =>
    wrapCall (callMcpTool env "store_document" (.obj
      [("text", .str text), ("classroom_id", jsOr classroom_id .null)]))
      (fun result => { statusCode := 200, body := (.obj
        [("success", .bool true), ("data", result), ("source", .str "mcp_server"),
         ("timestamp", .str env.nowIso),
         ("metadata", .obj
           [("text_length", .num (some (mkRat (lenStr text) 1))),
            ("classroom_id", jsOr classroom_id .null),
            ("text_preview", .str (previewStr text 100))])]) })
      (fun e => { statusCode := 500, body := (.obj
        [("error", .str e), ("timestamp", .str env.nowIso),
         ("hint", .str "Verifica que el servidor MCP esté funcionando y que Supabase esté configurado correctamente")]) })

/-- Handler for search_similar_documents (src/mcp_bridge.js lines
348-448); exported but not routed by the entry point. The only handler
that range-validates `limit` and `threshold`. -/
def handleMcpSearchSimilarDocuments (env : Env) (params : Bag) : HandlerOut :=
  let classroom_id := getB params "classroom_id"
  let limit := getBD params "limit" (.num (some 5))
  let threshold := getB params "threshold"
  match jsMissingOrBlank "query_text" (getB params "query_text") with
  | .error e => { result := .error e, trace := [] }
  | .ok none => retNoCall 400 (.obj
      [("error", .str "Falta el parámetro \"query_text\" o está vacío"),
       ("required", .arr [.str "query_text"]),
       ("optional", .arr [.str "classroom_id", .str "limit", .str "threshold"]),
       ("hint", .str "El texto de consulta no puede estar vacío")])
  | .ok (some query_text) =>
    let limit400 := retNoCall 400 (.obj
      [("error", .str "El parámetro \"limit\" debe ser un número entre 1 y 50"),
       ("received", limit),
       ("hint", .str "Usa un valor numérico válido para limitar los resultados")])
    match parseIntJ limit with
    | none => limit400
    | some parsedLimit =>
      if parsedLimit < 1 ∨ parsedLimit > 50 then limit400
      else
        let th400 := retNoCall 400 (.obj
          [("error", .str "El parámetro \"threshold\" debe ser un número entre 0 y 1"),
           ("received", threshold),
           ("hint", .str "El threshold representa la similitud mínima (0=cualquier similitud, 1=idéntico)")])
        let thBad : Bool :=
          if isUndef threshold then false
          else match parseFloatJ threshold with
            | none => true
            | some parsedThreshold => decide (parsedThreshold < 0 ∨ parsedThreshold > 1)
        if thBad then th400
        else
          let mcpParams : Bag :=
            [("query_text", .str query_text), ("limit", .num (some (mkRat parsedLimit 1)))]
            ++ (if truthy classroom_id then [("classroom_id", classroom_id)] else [])
            ++ (if isUndef threshold then []
                else [("threshold", .num (parseFloatJ threshold))])
          wrapCall (callMcpTool env "search_similar_documents" (.obj mcpParams))
            (fun result => { statusCode := 200, body := (.obj
              [("success", .bool true), ("data", result), ("source", .str "mcp_server"),
               ("timestamp", .str env.nowIso),
               ("metadata", .obj
                 [("query_length", .num (some (mkRat (lenStr query_text) 1))),
                  ("query_preview", .str (previewStr query_text 100)),
                  ("classroom_id", jsOr classroom_id .null),
                  ("limit_used", .num (some (mkRat parsedLimit 1))),
                  ("threshold_used", jsOr threshold (.str "default"))])]) })
            (fun e => { statusCode := 500, body := (.obj
              [("error", .str e), ("timestamp", .str env.nowIso),
               ("hint", .str "Verifica que el servidor MCP esté funcionando y que las funciones de Supabase estén configuradas")]) })

/-- Handler for store_document_chunk (src/mcp_bridge.js lines 453-537).
Its `chunk_index` guard is a strict undefined/null check. -/
def handleMcpStoreDocumentChunk (env : Env) (params : Bag) : HandlerOut :=
  let chunk_index := getB params "chunk_index"
  let token_count := getB params "token_count"
  match jsMissingOrBlank "classroom_document_id" (getB params "classroom_document_id") with
  | .error e => { result := .error e, trace := [] }
  | .ok none => retNoCall 400 (.obj
      [("error", .str "Falta el parámetro \"classroom_document_id\""),
       ("required", .arr [.str "classroom_document_id", .str "chunk_index", .str "content"]),
       ("optional", .arr [.str "token_count"]),
       ("hint", .str "El ID del documento es obligatorio")])
  | .ok (some classroom_document_id) =>
    match chunk_index with
    | .undef | .null => retNoCall 400 (.obj
        [("error", .str "Falta el parámetro \"chunk_index\""),
         ("required", .arr [.str "classroom_document_id", .str "chunk_index", .str "content"]),
         ("hint", .str "El índice del chunk es obligatorio (0, 1, 2, ...)")])
    | _ =>
      match jsMissingOrBlank "content" (getB params "content") with
      | .error e => { result := .error e, trace := [] }
      | .ok none => retNoCall 400 (.obj
          [("error", .str "Falta el parámetro \"content\" o está vacío"),
           ("required", .arr [.str "classroom_document_id", .str "chunk_index", .str "content"]),
           ("hint", .str "El contenido del chunk no puede estar vacío")])
      | .ok (some content) =>
        wrapCall (callMcpTool env "store_document_chunk" (.obj
          [("classroom_document_id", .str classroom_document_id),
           ("chunk_index", .num ((parseIntJ chunk_index).map (fun i => mkRat i 1))),
           ("content", .str content),
           ("token_count", if truthy token_count
             then .num ((parseIntJ token_count).map (fun i => mkRat i 1)) else .undef)]))
          (fun result => { statusCode := 200, body := (.obj
            [("success", .bool true), ("data", result), ("source", .str "mcp_server"),
             ("timestamp", .str env.nowIso),
             ("metadata", .obj
               [("classroom_document_id", .str classroom_document_id),
                ("chunk_index", .num ((parseIntJ chunk_index).map (fun i => mkRat i 1))),
                ("content_length", .num (some (mkRat (lenStr content) 1))),
                ("token_count", jsOr token_count (.str "auto"))])]) })
          (fun e => { statusCode := 500, body := (.obj
            [("error", .str e), ("timestamp", .str env.nowIso),
             ("hint", .str "Verifica que el documento exista y que Supabase esté configurado correctamente")]) })

/-- Handler for search_similar_chunks (src/mcp_bridge.js lines 542-615).
It performs no validation of `limit` or `threshold`; it forwards
`parseInt(limit)` and a truthiness-guarded `parseFloat(threshold)`. -/
def handleMcpSearchSimilarChunks (env : Env) (params : Bag) : HandlerOut :=
  let limit := getBD params "limit" (.num (some 5))
  let threshold := getB params "threshold"
  match jsMissingOrBlank "query_text" (getB params "query_text") with
  | .error e => { result := .error e, trace := [] }
  | .ok none => retNoCall 400 (.obj
      [("error", .str "Falta el parámetro \"query_text\" o está vacío"),
       ("required", .arr [.str "query_text", .str "classroom_id"]),
       ("optional", .arr [.str "limit", .str "threshold"]),
       ("hint", .str "El texto de consulta no puede estar vacío")])
  | .ok (some query_text) =>
    match jsMissingOrBlank "classroom_id" (getB params "classroom_id") with
    | .error e => { result := .error e, trace := [] }
    | .ok none => retNoCall 400 (.obj
        [("error", .str "Falta el parámetro \"classroom_id\""),
         ("required", .arr [.str "query_text", .str "classroom_id"]),
         ("optional", .arr [.str "limit", .str "threshold"]),
         ("hint", .str "El ID del classroom es OBLIGATORIO para esta búsqueda")])
    | .ok (some classroom_id) =>
      wrapCall (callMcpTool env "search_similar_chunks" (.obj
        [("query_text", .str query_text),
         ("classroom_id", .str classroom_id),
         ("limit", .num ((parseIntJ limit).map (fun i => mkRat i 1))),
         ("threshold", if truthy threshold then .num (parseFloatJ threshold) else .undef)]))
        (fun result => { statusCode := 200, body := (.obj
          [("success", .bool true), ("data", result), ("source", .str "mcp_server"),
           ("timestamp", .str env.nowIso),
           ("metadata", .obj
             [("query_text", .str query_text),
              ("classroom_id", .str classroom_id),
              ("limit", .num ((parseIntJ limit).map (fun i => mkRat i 1))),
              ("threshold", jsOr threshold (.str "default"))])]) })
        (fun e => { statusCode := 500, body := (.obj
          [("error", .str e), ("timestamp", .str env.nowIso),
           ("hint", .str "Verifica que el classroom exista y que la función RPC match_classroom_chunks esté creada")]) })

/-- Handler for chat_with_classroom_assistant (src/mcp_bridge.js lines
620-696); nests its arguments under a request key. -/
def handleMcpChatWithClassroom (env : Env) (params : Bag) : HandlerOut :=
  let user_id := getB params "user_id"
  let session_id := getB params "session_id"
  match jsMissingOrBlank "message" (getB params "message") with
  | .error e => { result := .error e, trace := [] }
  | .ok none => retNoCall 400 (.obj
      [("error", .str "Falta el parámetro \"message\" o está vacío"),
       ("required", .arr [.str "message", .str "classroom_id"]),
       ("optional", .arr [.str "user_id", .str "session_id"]),
       ("hint", .str "El mensaje del usuario no puede estar vacío")])
  | .ok (some message) =>
    match jsMissingOrBlank "classroom_id" (getB params "classroom_id") with
    | .error e => { result := .error e, trace := [] }
    | .ok none => retNoCall 400 (.obj
        [("error", .str "Falta el parámetro \"classroom_id\""),
         ("required", .arr [.str "message", .str "classroom_id"]),
         ("optional", .arr [.str "user_id", .str "session_id"]),
         ("hint", .str "El ID del classroom es obligatorio")])
    | .ok (some classroom_id) =>
      wrapCall (callMcpTool env "chat_with_classroom_assistant" (.obj
        [("request", .obj
          [("message", .str message),
           ("classroom_id", .str classroom_id),
           ("user_id", jsOr user_id .null),
           ("session_id", jsOr session_id .null)])]))
        (fun result => { statusCode := 200, body := (.obj
          [("success", .bool true), ("data", result), ("source", .str "mcp_server"),
           ("timestamp", .str env.nowIso),
           ("metadata", .obj
             [("message_length", .num (some (mkRat (lenStr message) 1))),
              ("classroom_id", .str classroom_id),
              ("user_id", jsOr user_id (.str "anonymous")),
              ("session_id", jsOr session_id (.str "none"))])]) })
        (fun e => { statusCode := 500, body := (.obj
          [("error", .str e), ("timestamp", .str env.nowIso),
           ("hint", .str "Verifica que el classroom exista y tenga documentos cargados")]) })

/-- Handler for get_classroom_info (src/mcp_bridge.js lines 701-744). -/
def handleMcpGetClassroomInfo (env : Env) (params : Bag) : HandlerOut :=
  match jsMissingOrBlank "classroom_id" (getB params "classroom_id") with
  | .error e => { result := .error e, trace := [] }
  | .ok none => retNoCall 400 (.obj
      [("error", .str "Falta el parámetro \"classroom_id\""),
       ("required", .arr [.str "classroom_id"]),
       ("hint", .str "El ID del classroom es obligatorio")])
  | .ok (some classroom_id) =>
    wrapCall (callMcpTool env "get_classroom_info" (.obj
      [("classroom_id", .str classroom_id)]))
      (fun result => { statusCode := 200, body := (.obj
        [("success", .bool true), ("data", result), ("source", .str "mcp_server"),
         ("timestamp", .str env.nowIso)]) })
      (fun e => { statusCode := 500, body := (.obj
        [("error", .str e), ("timestamp", .str env.nowIso),
         ("hint", .str "Verifica que el classroom exista")]) })

/-- Handler for create_embedding (src/mcp_bridge.js lines 749-810). -/
def handleMcpCreateEmbedding (env : Env) (params : Bag) : HandlerOut :=
  match jsMissingOrBlank "text" (getB params "text") with
  | .error e => { result := .error e, trace := [] }
  | .ok none => retNoCall 400 (.obj
      [("error", .str "Falta el parámetro \"text\" o está vacío"),
       ("required", .arr [.str "text", .str "classroom_id"]),
       ("hint", .str "El texto no puede estar vacío")])
  | .ok (some text) =>
    match jsMissingOrBlank "classroom_id" (getB params "classroom_id") with
    | .error e => { result := .error e, trace := [] }
    | .ok none => retNoCall 400 (.obj
        [("error", .str "Falta el parámetro \"classroom_id\""),
         ("required", .arr [.str "text", .str "classroom_id"]),
         ("hint", .str "El ID del classroom es obligatorio")])
    | .ok (some classroom_id) =>
      wrapCall (callMcpTool env "create_embedding" (.obj
        [("text", .str text), ("classroom_id", .str classroom_id)]))
        (fun result => { statusCode := 200, body := (.obj
          [("success", .bool true), ("data", result), ("source", .str "mcp_server"),
           ("timestamp", .str env.nowIso),
           ("metadata", .obj
             [("text_length", .num (some (mkRat (lenStr text) 1))),
              ("classroom_id", .str classroom_id)])]) })
        (fun e => { statusCode := 500, body := (.obj
          [("error", .str e), ("timestamp", .str env.nowIso),
           ("hint", .str "Verifica la configuración de Gemini y Supabase")]) })

/-- Handler for professor_assistant (src/mcp_bridge.js lines 815-876). -/
def handleMcpProfessorAssistant (env : Env) (params : Bag) : HandlerOut :=
  match jsMissingOrBlank "question" (getB params "question") with
  | .error e => { result := .error e, trace := [] }
  | .ok none => retNoCall 400 (.obj
      [("error", .str "Falta el parámetro \"question\" o está vacío"),
       ("required", .arr [.str "question", .str "classroom_id"]),
       ("hint", .str "La pregunta no puede estar vacía")])
  | .ok (some question) =>
    match jsMissingOrBlank "classroom_id" (getB params "classroom_id") with
    | .error e => { result := .error e, trace := [] }
    | .ok none => retNoCall 400 (.obj
        [("error", .str "Falta el parámetro \"classroom_id\""),
         ("required", .arr [.str "question", .str "classroom_id"]),
         ("hint", .str "El ID del classroom es obligatorio")])
    | .ok (some classroom_id) =>
      wrapCall (callMcpTool env "professor_assistant" (.obj
        [("question", .str question), ("classroom_id", .str classroom_id)]))
        (fun result => { statusCode := 200, body := (.obj
          [("success", .bool true), ("data", result), ("source", .str "mcp_server"),
           ("timestamp", .str env.nowIso),
           ("metadata", .obj
             [("question_length", .num (some (mkRat (lenStr question) 1))),
              ("classroom_id", .str classroom_id)])]) })
        (fun e => { statusCode := 500, body := (.obj
          [("error", .str e), ("timestamp", .str env.nowIso),
           ("hint", .str "Verifica que el classroom tenga documentos cargados")]) })

/-- Handler for generate_resources (src/mcp_bridge.js lines 881-991); the
one handler with an enumerated parameter. -/
def handleMcpGenerateResources (env : Env) (params : Bag) : HandlerOut :=
  let resource_type := getB params "resource_type"
  let topic := getB params "topic"
  let source_document_ids := getB params "source_document_ids"
  match jsMissingOrBlank "classroom_id" (getB params "classroom_id") with
  | .error e => { result := .error e, trace := [] }
  | .ok none => retNoCall 400 (.obj
      [("error", .str "Falta el parámetro \"classroom_id\""),
       ("required", .arr [.str "classroom_id", .str "resource_type", .str "user_id"]),
       ("optional", .arr [.str "topic", .str "source_document_ids"]),
       ("hint", .str "El ID del classroom es obligatorio")])
  | .ok (some classroom_id) =>
    match jsMissingOrBlank "resource_type" resource_type with
    | .error e => { result := .error e, trace := [] }
    | .ok none => retNoCall 400 (.obj
        [("error", .str "Falta el parámetro \"resource_type\""),
         ("required", .arr [.str "classroom_id", .str "resource_type", .str "user_id"]),
         ("optional", .arr [.str "topic", .str "source_document_ids"]),
         ("hint", .str "El tipo de recurso es obligatorio: \"pdf\" o \"ppt\"")])
    | .ok (some rt) =>
      if ¬ (lowerStr rt = "pdf" ∨ lowerStr rt = "ppt") then retNoCall 400 (.obj
        [("error", .str "Tipo de recurso inválido"),
         ("received", resource_type),
         ("allowed", .arr [.str "pdf", .str "ppt"]),
         ("hint", .str "El tipo de recurso debe ser \"pdf\" o \"ppt\"")])
      else
        match jsMissingOrBlank "user_id" (getB params "user_id") with
        | .error e => { result := .error e, trace := [] }
        | .ok none => retNoCall 400 (.obj
            [("error", .str "Falta el parámetro \"user_id\""),
             ("required", .arr [.str "classroom_id", .str "resource_type", .str "user_id"]),
             ("optional", .arr [.str "topic", .str "source_document_ids"]),
             ("hint", .str "El ID del usuario es obligatorio")])
        | .ok (some user_id) =>
          let mcpParams : Bag :=
            [("classroom_id", .str classroom_id),
             ("resource_type", .str (lowerStr rt)),
             ("user_id", .str user_id)]
            ++ (if truthy topic then [("topic", topic)] else [])
            ++ (if truthy source_document_ids ∧ isArr source_document_ids
                then [("source_document_ids", source_document_ids)] else [])
          wrapCall (callMcpTool env "generate_resources" (.obj mcpParams))
            (fun result => { statusCode := 200, body := (.obj
              [("success", .bool true), ("data", result), ("source", .str "mcp_server"),
               ("timestamp", .str env.nowIso),
               ("metadata", .obj
                 [("classroom_id", .str classroom_id),
                  ("resource_type", .str (lowerStr rt)),
                  ("user_id", .str user_id),
                  ("topic", jsOr topic .null)])]) })
            (fun e => { statusCode := 500, body := (.obj
              [("error", .str e), ("timestamp", .str env.nowIso),
               ("hint", .str "Verifica que el classroom tenga documentos cargados y que las dependencias de generación estén instaladas")]) })

/-- Handler for analyze_and_update_user_context (src/mcp_bridge.js lines
996-1057). -/
def handleMcpAnalyzeUserContext (env : Env) (params : Bag) : HandlerOut :=
  match jsMissingOrBlank "user_id" (getB params "user_id") with
  | .error e => { result := .error e, trace := [] }
  | .ok none => retNoCall 400 (.obj
      [("error", .str "Falta el parámetro \"user_id\""),
       ("required", .arr [.str "user_id", .str "session_id"]),
       ("hint", .str "El ID del usuario es obligatorio")])
  | .ok (some user_id) =>
    match jsMissingOrBlank "session_id" (getB params "session_id") with
    | .error e => { result := .error e, trace := [] }
    | .ok none => retNoCall 400 (.obj
        [("error", .str "Falta el parámetro \"session_id\""),
         ("required", .arr [.str "user_id", .str "session_id"]),
         ("hint", .str "El ID de la sesión es obligatorio")])
    | .ok (some session_id) =>
      wrapCall (callMcpTool env "analyze_and_update_user_context" (.obj
        [("user_id", .str user_id), ("session_id", .str session_id)]))
        (fun result => { statusCode := 200, body := (.obj
          [("success", .bool true), ("data", result), ("source", .str "mcp_server"),
           ("timestamp", .str env.nowIso),
           ("metadata", .obj
             [("user_id", .str user_id), ("session_id", .str session_id)])]) })
        (fun e => { statusCode := 500, body := (.obj
          [("error", .str e), ("timestamp", .str env.nowIso),
           ("hint", .str "Verifica que el usuario y la sesión existan")]) })

/-! The operations exported from src/mcp_bridge.js, as an enumeration, and
the dispatcher of src/index.js. -/

/-- The twelve exported adapter operations. -/
inductive Op where
  | fiscalAdvice
  | generateEmbedding
  | storeDocument
  | searchSimilarDocuments
  | storeDocumentChunk
  | searchSimilarChunks
  | chatWithClassroom
  | getClassroomInfo
  | createEmbedding
  | professorAssistant
  | generateResources
  | analyzeUserContext
deriving DecidableEq

/-- Dispatch an operation to its handler function. -/
def runOp : Op → Env → Bag → HandlerOut
  | .fiscalAdvice => handleMcpFiscalAdvice
  | .generateEmbedding => handleMcpGenerateEmbedding
  | .storeDocument => handleMcpStoreDocument
  | .searchSimilarDocuments => handleMcpSearchSimilarDocuments
  | .storeDocumentChunk => handleMcpStoreDocumentChunk
  | .searchSimilarChunks => handleMcpSearchSimilarChunks
  | .chatWithClassroom => handleMcpChatWithClassroom
  | .getClassroomInfo => handleMcpGetClassroomInfo
  | .createEmbedding => handleMcpCreateEmbedding
  | .professorAssistant => handleMcpProfessorAssistant
  | .generateResources => handleMcpGenerateResources
  | .analyzeUserContext => handleMcpAnalyzeUserContext

/-- Backend tool name each operation invokes. -/
def toolNameOf : Op → String
  | .fiscalAdvice => "get_fiscal_advice"
  | .generateEmbedding => "generate_embedding"
  | .storeDocument => "store_document"
  | .searchSimilarDocuments => "search_similar_documents"
  | .storeDocumentChunk => "store_document_chunk"
  | .searchSimilarChunks => "search_similar_chunks"
  | .chatWithClassroom => "chat_with_classroom_assistant"
  | .getClassroomInfo => "get_classroom_info"
  | .createEmbedding => "create_embedding"
  | .professorAssistant => "professor_assistant"
  | .generateResources => "generate_resources"
  | .analyzeUserContext => "analyze_and_update_user_context"

/-- Transport-level response of the Lambda (src/index.js createResponse):
status code, fixed CORS headers and a serialized JSON body. -/
structure LambdaResponse where
  statusCode : Nat
  headers : List (String × String)
  body : String

/-- Fixed header set of `createResponse` (src/index.js lines 32-37). -/
def corsHeaders : List (String × String) :=
  [("Content-Type", "application/json"),
   ("Access-Control-Allow-Origin", "*"),
   ("Access-Control-Allow-Methods", "GET, POST, OPTIONS"),
   ("Access-Control-Allow-Headers", "Content-Type, Authorization")]

/-- Model of `createResponse` (src/index.js lines 29-40). -/
def createResponse (statusCode : Nat) (body : JVal) : LambdaResponse :=
  { statusCode := statusCode, headers := corsHeaders, body := jsonStringify body }

/-- Dispatcher outcome: the transport response, the body value handed to
`createResponse` before serialization, and which adapter operation (if
any) was invoked — the latter two instrument the embedding. -/
structure DispatchOut where
  resp : LambdaResponse
  bodyVal : JVal
  invoked : Option Op

/-- Build a dispatcher outcome from a status and body value. -/
def mkOut (status : Nat) (body : JVal) (inv : Option Op) : DispatchOut :=
  { resp := createResponse status body, bodyVal := body, invoked := inv }

/-- Message of the TypeError thrown by `path.replace` on a non-string. -/
def replaceNotFn : String := "path.replace is not a function"

/-- Model SyntaxError message for a failed `JSON.parse` of the event
body. -/
def jsonParseErrMsg : String := "Unexpected token in JSON"

/-- Model of `getEndpoint` (src/index.js lines 42-70): choose the path
from the event fields, strip one trailing slash and route by substring
matching. A truthy non-string path makes `path.replace` throw. -/
def getEndpointE (ev : Bag) : Except String String :=
  let p0 := jsOr (getB ev "path") (jsOr (getB ev "rawPath")
              (jsOr (optGet (getB ev "requestContext") "resourcePath") (.str "")))
  match p0 with
  | .str s =>
    let path := stripTrailingSlash s
    .ok (
      if containsSub path "/fiscal-advice" ∨ containsSub path "/fiscaladvice" then "fiscal-advice"
      else if containsSub path "/generate-embedding" ∨ containsSub path "/embedding" then "generate-embedding"
      else if containsSub path "/store-document-chunk" ∨ containsSub path "/store-chunk" then "store-document-chunk"
      else if containsSub path "/search-chunks" ∨ containsSub path "/chunks" then "search-chunks"
      else if containsSub path "/chat-classroom" ∨ containsSub path "/chat-classroom" then "chat-classroom"
      else if containsSub path "/classroom-info" ∨ containsSub path "/classroom" then "classroom-info"
      else if containsSub path "/create-embedding" then "create-embedding"
      else if containsSub path "/professor-assistant" ∨ containsSub path "/professor" then "professor-assistant"
      else if containsSub path "/generate-resources" ∨ containsSub path "/resources" then "generate-resources"
      else if containsSub path "/analyze-user-context" ∨ containsSub path "/analyze-context" then "analyze-user-context"
      else if containsSub path "/health" then "health"
      else if path = "/" ∨ path = "" ∨ path = "/info" then "info"
      else "unknown")
  | _ => .error replaceNotFn

/-- Model of `extractParams` (src/index.js lines 10-27): merge spread
query parameters with the (possibly JSON-parsed) body, body keys winning;
with no query parameters, body or httpMethod, the event itself is the
bag. -/
def extractParamsE (ev : Bag) : Except String Bag :=
  let qsp := getB ev "queryStringParameters"
  let bodyV := getB ev "body"
  let params0 : Bag := if truthy qsp then spreadEntries qsp else []
  if truthy bodyV then
    match bodyV with
    | .str s =>
      match jsonParse s with
      | some b => .ok (params0 ++ spreadEntries b)
      | none => .error jsonParseErrMsg
    | v => .ok (params0 ++ spreadEntries v)
  else
    if truthy qsp = false ∧ truthy bodyV = false ∧ truthy (getB ev "httpMethod") = false
    then .ok ev
    else .ok params0

/-- The `MCP_SERVER_URL || default` expression used by the health and info
bodies. -/
def envUrlOr (env : Env) (d : String) : String :=
  match env.mcpEnvUrl with
  | some s => if s = "" then d else s
  | none => d

/-- Health-check body (src/index.js lines 157-163). -/
def healthBody (env : Env) : JVal :=
  .obj [("status", .str "healthy"),
        ("service", .str "FiscAI Lambda MCP Bridge"),
        ("version", .str "2.0.0"),
        ("mcp_server", .str (envUrlOr env "https://fiscmcp.fastmcp.app")),
        ("timestamp", .str env.nowIso)]

/-- Service documentation body (src/index.js lines 169-331). -/
def infoBody (env : Env) : JVal :=
  .obj [("service", .str "EstudIA Lambda - MCP Bridge"),
        ("version", .str "3.0.0"),
        ("description", .str "Bridge HTTP para conectar apps con servidor MCP de EstudIA (Sistema de gestión educativa tipo NotebookLM)"),
        ("mcp_server", .str (envUrlOr env "https://estudia-mcp.fastmcp.app")),
        ("endpoints", .obj
          [("health", .str "/health"),
           ("generateEmbedding", .str "/generate-embedding"),
           ("createEmbedding", .str "/create-embedding"),
           ("storeDocumentChunk", .str "/store-document-chunk"),
           ("searchChunks", .str "/search-chunks"),
           ("chatClassroom", .str "/chat-classroom"),
           ("professorAssistant", .str "/professor-assistant"),
           ("classroomInfo", .str "/classroom-info"),
           ("generateResources", .str "/generate-resources"),
           ("analyzeUserContext", .str "/analyze-user-context"),
           ("fiscalAdvice", .str "/fiscal-advice")]),
        ("usage", .obj
          [("generateEmbedding", .obj
             [("method", .str "POST"), ("path", .str "/generate-embedding"),
              ("body", .obj [("text", .str "string (required)")])]),
           ("createEmbedding", .obj
             [("method", .str "POST"), ("path", .str "/create-embedding"),
              ("body", .obj
                [("text", .str "string (required)"),
                 ("classroom_id", .str "string (required, UUID del classroom)")])]),
           ("storeDocumentChunk", .obj
             [("method", .str "POST"), ("path", .str "/store-document-chunk"),
              ("body", .obj
                [("classroom_document_id", .str "string (required, UUID del documento)"),
                 ("chunk_index", .str "number (required, índice del chunk: 0, 1, 2...)"),
                 ("content", .str "string (required, contenido del chunk)"),
                 ("token_count", .str "number (optional, número de tokens)")])]),
           ("searchChunks", .obj
             [("method", .str "POST"), ("path", .str "/search-chunks"),
              ("body", .obj
                [("query_text", .str "string (required)"),
                 ("classroom_id", .str "string (required, UUID del classroom)"),
                 ("limit", .str "number (optional, default: 5)"),
                 ("threshold", .str "number (optional, 0-1, default: 0.6)")])]),
           ("chatClassroom", .obj
             [("method", .str "POST"), ("path", .str "/chat-classroom"),
              ("body", .obj
                [("message", .str "string (required, mensaje del usuario)"),
                 ("classroom_id", .str "string (required, UUID del classroom)"),
                 ("user_id", .str "string (optional, UUID del usuario)"),
                 ("session_id", .str "string (optional, ID de sesión)")])]),
           ("classroomInfo", .obj
             [("method", .str "GET/POST"), ("path", .str "/classroom-info"),
              ("body", .obj
                [("classroom_id", .str "string (required, UUID del classroom)")])]),
           ("professorAssistant", .obj
             [("method", .str "POST"), ("path", .str "/professor-assistant"),
              ("body", .obj
                [("question", .str "string (required, pregunta del estudiante)"),
                 ("classroom_id", .str "string (required, UUID del classroom)")])]),
           ("generateResources", .obj
             [("method", .str "POST"), ("path", .str "/generate-resources"),
              ("body", .obj
                [("classroom_id", .str "string (required, UUID del classroom)"),
                 ("resource_type", .str "string (required, \"pdf\" o \"ppt\")"),
                 ("user_id", .str "string (required, UUID del usuario)"),
                 ("topic", .str "string (optional, tema específico del recurso)"),
                 ("source_document_ids", .str "array (optional, UUIDs de documentos específicos)")])]),
           ("analyzeUserContext", .obj
             [("method", .str "POST"), ("path", .str "/analyze-user-context"),
              ("body", .obj
                [("user_id", .str "string (required, UUID del usuario)"),
                 ("session_id", .str "string (required, UUID de la sesión del cubículo)")])]),
           ("fiscalAdvice", .obj
             [("method", .str "POST"), ("path", .str "/fiscal-advice"),
              ("body", .obj
                [("actividad", .str "string (required)"),
                 ("ingresos_anuales", .str "number (optional)"),
                 ("estado", .str "string (optional)"),
                 ("regimen_actual", .str "string (optional)"),
                 ("tiene_rfc", .str "boolean (optional)"),
                 ("contexto_adicional", .str "string (optional)")])])]),
        ("examples", .obj
          [("chatClassroom", .str (jTrim "\n            curl -X POST https://your-api-url.com/chat-classroom \\\n              -H \"Content-Type: application/json\" \\\n              -d \x27\x7b\n                \"message\": \"¿Cuáles son los conceptos clave de la clase?\",\n                \"classroom_id\": \"550e8400-e29b-41d4-a716-446655440000\"\n              \x7d\x27\n            ")),
           ("professorAssistant", .str (jTrim "\n            curl -X POST https://your-api-url.com/professor-assistant \\\n              -H \"Content-Type: application/json\" \\\n              -d \x27\x7b\n                \"question\": \"¿Puedes explicar el concepto de embeddings?\",\n                \"classroom_id\": \"550e8400-e29b-41d4-a716-446655440000\"\n              \x7d\x27\n            ")),
           ("storeChunk", .str (jTrim "\n            curl -X POST https://your-api-url.com/store-document-chunk \\\n              -H \"Content-Type: application/json\" \\\n              -d \x27\x7b\n                \"classroom_document_id\": \"doc-uuid-123\",\n                \"chunk_index\": 0,\n                \"content\": \"Los embeddings son vectores numéricos...\"\n              \x7d\x27\n            ")),
           ("searchChunks", .str (jTrim "\n            curl -X POST https://your-api-url.com/search-chunks \\\n              -H \"Content-Type: application/json\" \\\n              -d \x27\x7b\n                \"query_text\": \"embeddings vectores\",\n                \"classroom_id\": \"550e8400-e29b-41d4-a716-446655440000\",\n                \"limit\": 5\n              \x7d\x27\n            ")),
           ("analyzeUserContext", .str (jTrim "\n            curl -X POST https://your-api-url.com/analyze-user-context \\\n              -H \"Content-Type: application/json\" \\\n              -d \x27\x7b\n                \"user_id\": \"user-uuid-123\",\n                \"session_id\": \"session-uuid-456\"\n              \x7d\x27\n            "))]),
        ("timestamp", .str env.nowIso)]

/-- The 404 body (src/index.js lines 337-357); its available_endpoints
list has eleven entries: /health, the ten wired routes, with the fiscal
route suffixed as legacy. -/
def notFoundBody (env : Env) (ev : Bag) (endpoint : String) : JVal :=
  .obj [("error", .str "Endpoint no encontrado"),
        ("endpoint_requested", .str endpoint),
        ("path", jsOr (getB ev "path") (jsOr (getB ev "rawPath") (.str "N/A"))),
        ("method", jsOr (getB ev "httpMethod")
          (jsOr (optGet (optGet (getB ev "requestContext") "http") "method") (.str "N/A"))),
        ("available_endpoints", .arr
          [.str "/health",
           .str "/generate-embedding",
           .str "/create-embedding",
           .str "/store-document-chunk",
           .str "/search-chunks",
           .str "/chat-classroom",
           .str "/classroom-info",
           .str "/professor-assistant",
           .str "/generate-resources",
           .str "/analyze-user-context",
           .str "/fiscal-advice (legacy)"]),
        ("tip", .str "Accede a / o /info para ver la documentación completa"),
        ("timestamp", .str env.nowIso)]

/-- Body of the outermost catch of the Lambda handler (src/index.js lines
364-368); the stack field is present only in development mode. -/
def catch500Body (env : Env) (e : String) : JVal :=
  .obj [("error", .str e),
        ("stack", if env.nodeEnv = some "development" then .str (env.stackOf e) else .undef),
        ("timestamp", .str env.nowIso)]

/-- CORS preflight detection (src/index.js line 78). -/
def optionsCheck (ev : Bag) : Bool :=
  jsStrictEqStr (getB ev "httpMethod") "OPTIONS" ||
  jsStrictEqStr (optGet (optGet (getB ev "requestContext") "http") "method") "OPTIONS"

/-- Run one adapter operation from the dispatcher: a returned response is
serialized as-is; a thrown error is caught by the outer catch and becomes
a 500. -/
def runOpOut (env : Env) (op : Op) (params : Bag) : DispatchOut :=
  match (runOp op env params).result with
  | .ok r => mkOut r.statusCode r.body (some op)
  | .error e => mkOut 500 (catch500Body env e) (some op)

/-- The endpoint switch of the Lambda handler (src/index.js lines
89-359): route the named endpoint to its adapter operation, health, info
or the 404 default. -/
def dispatchEndpoint (env : Env) (ev : Bag) (endpoint : String) (params : Bag) : DispatchOut :=
  if endpoint = "fiscal-advice" then runOpOut env .fiscalAdvice params
  else if endpoint = "generate-embedding" then runOpOut env .generateEmbedding params
  else if endpoint = "store-document-chunk" then runOpOut env .storeDocumentChunk params
  else if endpoint = "search-chunks" then runOpOut env .searchSimilarChunks params
  else if endpoint = "chat-classroom" then runOpOut env .chatWithClassroom params
  else if endpoint = "classroom-info" then runOpOut env .getClassroomInfo params
  else if endpoint = "create-embedding" then runOpOut env .createEmbedding params
  else if endpoint = "professor-assistant" then runOpOut env .professorAssistant params
  else if endpoint = "generate-resources" then runOpOut env .generateResources params
  else if endpoint = "analyze-user-context" then runOpOut env .analyzeUserContext params
  else if endpoint = "health" then mkOut 200 (healthBody env) none
  else if endpoint = "info" then mkOut 200 (infoBody env) none
  else mkOut 404 (notFoundBody env ev endpoint) none

/-- Model of the exported Lambda handler (src/index.js lines 74-370):
answer OPTIONS unconditionally, route by endpoint name, and catch every
escaped error into a 500 response. -/
def lambdaHandler (env : Env) (ev : Bag) : DispatchOut :=
  if optionsCheck ev then mkOut 200 (.obj [("message", .str "OK")]) none
  else
    match getEndpointE ev with
    | .error e => mkOut 500 (catch500Body env e) none
    | .ok endpoint =>
      match extractParamsE ev with
      | .error e => mkOut 500 (catch500Body env e) none
      | .ok params => dispatchEndpoint env ev endpoint params

/-! Observation helpers used to state properties of handler and
dispatcher outcomes. -/

/-- Status code of a returned response, none when the handler threw. -/
def houtStatus (h : HandlerOut) : Option Nat :=
  match h.result with
  | .ok r => some r.statusCode
  | .error _ => none

/-- Whether the handler let an exception escape. -/
def houtThrew (h : HandlerOut) : Bool :=
  match h.result with
  | .error _ => true
  | .ok _ => false

/-- A named field of the returned body, none when the handler threw. -/
def respField (h : HandlerOut) (k : String) : Option JVal :=
  match h.result with
  | .ok r => some (fieldD r.body k)
  | .error _ => none

/-- Whether a body value has a given key (with a defined value). -/
def hasKeyB (v : JVal) (k : String) : Bool := !(isUndef (fieldD v k))

/-- Whether the returned body has a given key. -/
def respHasKey (h : HandlerOut) (k : String) : Bool :=
  match h.result with
  | .ok r => hasKeyB r.body k
  | .error _ => false

/-- Whether the returned body has a string-valued error field. -/
def errIsStr (h : HandlerOut) : Bool :=
  match respField h "error" with
  | some (.str _) => true
  | _ => false

/-- Whether the returned body's error field names the given parameter in
double quotes. -/
def errNames (h : HandlerOut) (f : String) : Bool :=
  match respField h "error" with
  | some (.str e) => containsSub e ("\"" ++ f ++ "\"")
  | _ => false

/-- Whether the returned body's required list contains the parameter. -/
def reqListHas (h : HandlerOut) (f : String) : Bool :=
  match respField h "required" with
  | some (.arr xs) => xs.any (fun x => jsStrictEqStr x f)
  | _ => false

/-- Error message of a tool call, none on success. -/
def callErrMsg (c : CallOut) : Option String :=
  match c.result with
  | .error e => some e
  | .ok _ => none

/-- The parameters each operation subjects to string methods (`.trim()`
on required string parameters, `.toLowerCase()` on resource_type), read
off the handler bodies. -/
def strOps : Op → List String
  | .fiscalAdvice => []
  | .generateEmbedding => ["text"]
  | .storeDocument => ["text"]
  | .searchSimilarDocuments => ["query_text"]
  | .storeDocumentChunk => ["classroom_document_id", "content"]
  | .searchSimilarChunks => ["query_text", "classroom_id"]
  | .chatWithClassroom => ["message", "classroom_id"]
  | .getClassroomInfo => ["classroom_id"]
  | .createEmbedding => ["text", "classroom_id"]
  | .professorAssistant => ["question", "classroom_id"]
  | .generateResources => ["classroom_id", "resource_type", "user_id"]
  | .analyzeUserContext => ["user_id", "session_id"]

/-- A value is string-safe when it is a string whenever it is truthy (so
`.trim()` cannot throw on it). -/
def strSafe (v : JVal) : Bool := !truthy v || isStr v

/-- A bag is string-safe for an operation when every parameter the
operation subjects to string methods is string-safe. -/
def strSafeBag (op : Op) (bag : Bag) : Bool :=
  (strOps op).all (fun k => strSafe (getB bag k))

/-- Boolean form of the missing-or-blank guard `!v || !v.trim()`,
meaningful on string-safe values. -/
def checkMOB (v : JVal) : Bool :=
  if truthy v = false then true
  else match v with
    | .str s => decide (jTrim s = "")
    | _ => false

/-- Nullish test (undefined or null). -/
def isNullish : JVal → Bool
  | .undef => true
  | .null => true
  | _ => false

/-- The first required parameter an operation's validation chain rejects
as missing or blank, mirroring each handler's guard order; none when the
validation chain passes all missing-or-blank guards (an invalid
resource_type enumeration is a different kind of 400 and yields none). -/
def firstMissing : Op → Bag → Option String
  | .fiscalAdvice, bag =>
    if truthy (getB bag "actividad") = false then some "actividad" else none
  | .generateEmbedding, bag =>
    if checkMOB (getB bag "text") then some "text" else none
  | .storeDocument, bag =>
    if checkMOB (getB bag "text") then some "text" else none
  | .searchSimilarDocuments, bag =>
    if checkMOB (getB bag "query_text") then some "query_text" else none
  | .storeDocumentChunk, bag =>
    if checkMOB (getB bag "classroom_document_id") then some "classroom_document_id"
    else if isNullish (getB bag "chunk_index") then some "chunk_index"
    else if checkMOB (getB bag "content") then some "content"
    else none
  | .searchSimilarChunks, bag =>
    if checkMOB (getB bag "query_text") then some "query_text"
    else if checkMOB (getB bag "classroom_id") then some "classroom_id"
    else none
  | .chatWithClassroom, bag =>
    if checkMOB (getB bag "message") then some "message"
    else if checkMOB (getB bag "classroom_id") then some "classroom_id"
    else none
  | .getClassroomInfo, bag =>
    if checkMOB (getB bag "classroom_id") then some "classroom_id" else none
  | .createEmbedding, bag =>
    if checkMOB (getB bag "text") then some "text"
    else if checkMOB (getB bag "classroom_id") then some "classroom_id"
    else none
  | .professorAssistant, bag =>
    if checkMOB (getB bag "question") then some "question"
    else if checkMOB (getB bag "classroom_id") then some "classroom_id"
    else none
  | .generateResources, bag =>
    if checkMOB (getB bag "classroom_id") then some "classroom_id"
    else if checkMOB (getB bag "resource_type") then some "resource_type"
    else match getB bag "resource_type" with
      | .str rt =>
        if ¬ (lowerStr rt = "pdf" ∨ lowerStr rt = "ppt") then none
        else if checkMOB (getB bag "user_id") then some "user_id" else none
      | _ => none
  | .analyzeUserContext, bag =>
    if checkMOB (getB bag "user_id") then some "user_id"
    else if checkMOB (getB bag "session_id") then some "session_id"
    else none

/-! Fixtures and observation definitions used by the theorems below. -/

/-! Concrete fixtures used by witnesses and counterexamples. -/

/-- A benign backend response: HTTP 200 with an empty JSON object body. -/
def okBackendResp : RawResp :=
  { statusCode := 200, headers := [("content-type", "application/json")], data := "\x7b\x7d" }

/-- An environment whose backend always answers 200 with an empty
object. -/
def envOk : Env :=
  { backend := fun _ => .ok okBackendResp, mcpEnvUrl := some "http://mcp.example",
    nowMs := 1700000000000, nowIso := "2026-01-01T00:00:00.000Z", nodeEnv := none,
    stackOf := fun _ => "stack" }

/-- An event whose path matches no route. -/
def evNope : Bag := [("path", JVal.str "/nope")]

/-- Number of entries of the available_endpoints list in a body value. -/
def availCount (v : JVal) : Nat :=
  match fieldD v "available_endpoints" with
  | .arr xs => xs.length
  | _ => 0

/-- The ten operations the endpoint switch can route to. -/
def routedOps : List Op :=
  [.fiscalAdvice, .generateEmbedding, .storeDocumentChunk, .searchSimilarChunks,
   .chatWithClassroom, .getClassroomInfo, .createEmbedding, .professorAssistant,
   .generateResources, .analyzeUserContext]

/-- Whether some line of the trimmed text starts with the SSE data
prefix. -/
def hasDataLine (s : String) : Bool :=
  (splitLines (jTrim s)).any (fun l => startsWithStr l "data: ")

/-- Body-parsing policy in the words of the specification (refinement
reference for claim C7, as stated): on an event-stream content type scan
the response text's lines, as received, for the first line starting with
the literal prefix data-colon-space and parse its remainder, falling
through to parsing the whole body when no such line exists or its parse
fails; keep the raw text when parsing fails entirely. -/
def specProcessBody (jp : String → Option JVal) (contentType data : String) : JVal :=
  let whole : JVal :=
    match jp data with
    | some v => v
    | none => .str data
  if containsSub contentType "text/event-stream" then
    match (splitLines data).find? (fun l => startsWithStr l "data: ") with
    | some l =>
      match jp (dropStr l 6) with
      | some v => v
      | none => whole
    | none => whole
  else whole

/-- Body-parsing policy as amended for claim C7: identical to the
specification's words except that the scanned lines are those of the
TRIMMED response text — the code calls data.trim() before splitting, so a
data line preceded by leading whitespace on its line is still honored. -/
def specProcessBodyTrim (jp : String → Option JVal) (contentType data : String) : JVal :=
  let whole : JVal :=
    match jp data with
    | some v => v
    | none => .str data
  if containsSub contentType "text/event-stream" then
    match (splitLines (jTrim data)).find? (fun l => startsWithStr l "data: ") with
    | some l =>
      match jp (dropStr l 6) with
      | some v => v
      | none => whole
    | none => whole
  else whole

/-- A backend that answers 200 with the body containing a falsy result
field. -/
def rawResultFalse : RawResp :=
  { statusCode := 200, headers := [("content-type", "application/json")],
    data := "\x7b\"result\": false\x7d" }

/-- Environment around `rawResultFalse`. -/
def envResultFalse : Env :=
  { backend := fun _ => .ok rawResultFalse, mcpEnvUrl := some "http://mcp.example",
    nowMs := 0, nowIso := "TS0", nodeEnv := none, stackOf := fun _ => "" }

/-- A backend that answers 200 with an object without a result field. -/
def rawPlainObj : RawResp :=
  { statusCode := 200, headers := [("content-type", "application/json")],
    data := "\x7b\"x\":1\x7d" }

/-- Environment around `rawPlainObj`. -/
def envPlainObj : Env :=
  { backend := fun _ => .ok rawPlainObj, mcpEnvUrl := some "http://mcp.example",
    nowMs := 0, nowIso := "TS0", nodeEnv := none, stackOf := fun _ => "" }

/-- The guard of the alternate-transport branch: a non-nullish body whose
error field is truthy with code strictly equal to -32600. -/
def isRpc32600 (B : JVal) : Bool :=
  match B with
  | .null => false
  | .undef => false
  | v => truthy (fieldD v "error") && jsStrictEqNum (fieldD (fieldD v "error") "code") (-32600)

/-- Whether a tool call failed with a message containing the given
text. -/
def callErrContains (c : CallOut) (s : String) : Bool :=
  match c.result with
  | .error m => containsSub m s
  | .ok _ => false

/-- Whether a tool call failed. -/
def callFailed (c : CallOut) : Bool :=
  match c.result with
  | .error _ => true
  | .ok _ => false

/-- A backend response carrying a JSON-RPC invalid-request error. -/
def raw32600 : RawResp :=
  { statusCode := 400, headers := [("content-type", "application/json")],
    data := "\x7b\"error\":\x7b\"code\":-32600\x7d\x7d" }

/-- The alternate endpoint's successful response. -/
def rawAltOk : RawResp :=
  { statusCode := 200, headers := [("content-type", "application/json")],
    data := "\x7b\"ok\":1\x7d" }

/-- Environment whose primary endpoint answers -32600 and whose alternate
endpoint answers 200. -/
def env32600 : Env :=
  { backend := fun r => if containsSub r.url "/tools/" then .ok rawAltOk else .ok raw32600,
    mcpEnvUrl := some "http://mcp.example", nowMs := 0, nowIso := "TS0", nodeEnv := none,
    stackOf := fun _ => "" }

/-- Shape of a correct backend call envelope for an operation: the
JSON-RPC request to the /mcp endpoint with method tools/call, a
timestamp-derived id, the operation's tool name, and arguments nested
under a request key exactly for the fiscal-advice and chat-with-classroom
operations. -/
def envelopeOk (env : Env) (op : Op) (req : HttpReq) : Prop :=
  req.url = mcpServerUrl env ++ "/mcp" ∧
  req.method = "POST" ∧
  req.body.map (fun b => fieldD b "jsonrpc") = some (.str "2.0") ∧
  req.body.map (fun b => fieldD b "method") = some (.str "tools/call") ∧
  req.body.map (fun b => fieldD b "id") = some (.str ("call-" ++ Nat.repr env.nowMs)) ∧
  req.body.map (fun b => fieldD (fieldD b "params") "name") = some (.str (toolNameOf op)) ∧
  req.body.map (fun b => hasKeyB (fieldD (fieldD b "params") "arguments") "request") =
    some (match op with | .fiscalAdvice => true | .chatWithClassroom => true | _ => false)

/-- On a string-safe value the guard evaluation cannot throw: it yields
the missing-or-blank outcome or the validated string. -/
theorem mob_cases (name : String) (v : JVal) (h : strSafe v = true) :
    jsMissingOrBlank name v = .ok none ∨ ∃ s, v = .str s ∧ jsMissingOrBlank name v = .ok (some s) := by
  unfold jsMissingOrBlank
  by_cases ht : truthy v = false
  · simp [ht]
  · have hstr : isStr v = true := by
      unfold strSafe at h
      rcases Bool.or_eq_true_iff.mp h with h1 | h1
      · exact absurd (by simpa using h1) ht
      · exact h1
    cases v <;> simp [isStr] at hstr
    simp only [ht, if_false]
    rename_i s
    by_cases hz : jTrim s = "" <;> simp [hz]

/-- The guard outcome `ok none` agrees with the Boolean guard. -/
theorem mob_none_iff (name : String) (v : JVal) (h : strSafe v = true) :
    jsMissingOrBlank name v = .ok none ↔ checkMOB v = true := by
  unfold jsMissingOrBlank checkMOB
  by_cases ht : truthy v = false
  · simp [ht]
  · simp only [ht, if_false]
    have hstr : isStr v = true := by
      unfold strSafe at h
      rcases Bool.or_eq_true_iff.mp h with h1 | h1
      · exact absurd (by simpa using h1) ht
      · exact h1
    cases v <;> simp [isStr] at hstr
    rename_i s
    by_cases hz : jTrim s = "" <;> simp [hz]

/-- The guard outcome `ok (some s)` refutes the Boolean guard. -/
theorem mob_some_check (name : String) (v : JVal) (s : String)
    (h : jsMissingOrBlank name v = .ok (some s)) : checkMOB v = false := by
  unfold jsMissingOrBlank at h
  unfold checkMOB
  by_cases ht : truthy v = false
  · simp [ht] at h
  · simp only [ht, if_false] at h ⊢
    cases v <;> simp at h <;> try rfl
    rename_i t
    by_cases hz : jTrim t = "" <;> simp [hz] at h ⊢

/-- Running an operation from the dispatcher records that operation as
invoked, whether it returns or throws. -/
theorem runOpOut_invoked (env : Env) (op : Op) (params : Bag) :
    (runOpOut env op params).invoked = some op := by
  unfold runOpOut
  cases h : (runOp op env params).result <;> simp [mkOut]

/-- Case analysis of the endpoint switch: each endpoint name either runs
one of the ten routed operations or yields the health, info or 404
response. -/
theorem dispatchEndpoint_cases (env : Env) (ev : Bag) (endpoint : String) (params : Bag) :
    (∃ op, op ∈ routedOps ∧ dispatchEndpoint env ev endpoint params = runOpOut env op params) ∨
    dispatchEndpoint env ev endpoint params = mkOut 200 (healthBody env) none ∨
    dispatchEndpoint env ev endpoint params = mkOut 200 (infoBody env) none ∨
    dispatchEndpoint env ev endpoint params = mkOut 404 (notFoundBody env ev endpoint) none := by
  unfold dispatchEndpoint
  by_cases h1 : endpoint = "fiscal-advice"
  · rw [if_pos h1]; exact .inl ⟨.fiscalAdvice, by decide, rfl⟩
  rw [if_neg h1]
  by_cases h2 : endpoint = "generate-embedding"
  · rw [if_pos h2]; exact .inl ⟨.generateEmbedding, by decide, rfl⟩
  rw [if_neg h2]
  by_cases h3 : endpoint = "store-document-chunk"
  · rw [if_pos h3]; exact .inl ⟨.storeDocumentChunk, by decide, rfl⟩
  rw [if_neg h3]
  by_cases h4 : endpoint = "search-chunks"
  · rw [if_pos h4]; exact .inl ⟨.searchSimilarChunks, by decide, rfl⟩
  rw [if_neg h4]
  by_cases h5 : endpoint = "chat-classroom"
  · rw [if_pos h5]; exact .inl ⟨.chatWithClassroom, by decide, rfl⟩
  rw [if_neg h5]
  by_cases h6 : endpoint = "classroom-info"
  · rw [if_pos h6]; exact .inl ⟨.getClassroomInfo, by decide, rfl⟩
  rw [if_neg h6]
  by_cases h7 : endpoint = "create-embedding"
  · rw [if_pos h7]; exact .inl ⟨.createEmbedding, by decide, rfl⟩
  rw [if_neg h7]
  by_cases h8 : endpoint = "professor-assistant"
  · rw [if_pos h8]; exact .inl ⟨.professorAssistant, by decide, rfl⟩
  rw [if_neg h8]
  by_cases h9 : endpoint = "generate-resources"
  · rw [if_pos h9]; exact .inl ⟨.generateResources, by decide, rfl⟩
  rw [if_neg h9]
  by_cases h10 : endpoint = "analyze-user-context"
  · rw [if_pos h10]; exact .inl ⟨.analyzeUserContext, by decide, rfl⟩
  rw [if_neg h10]
  by_cases h11 : endpoint = "health"
  · rw [if_pos h11]; exact .inr (.inl rfl)
  rw [if_neg h11]
  by_cases h12 : endpoint = "info"
  · rw [if_pos h12]; exact .inr (.inr (.inl rfl))
  rw [if_neg h12]
  exact .inr (.inr (.inr rfl))

/-! Claim C10. -/

/-- Claim C10: only ten of the twelve exported adapter operations are
reachable through the dispatcher — no inbound event routes to the
store-document or search-similar-documents handlers. -/
theorem c10_store_and_search_documents_unrouted (env : Env) (ev : Bag) :
    (lambdaHandler env ev).invoked ≠ some Op.storeDocument ∧
    (lambdaHandler env ev).invoked ≠ some Op.searchSimilarDocuments := by
  unfold lambdaHandler
  split
  · exact ⟨fun h => Option.noConfusion h, fun h => Option.noConfusion h⟩
  · split
    · exact ⟨fun h => Option.noConfusion h, fun h => Option.noConfusion h⟩
    · split
      · exact ⟨fun h => Option.noConfusion h, fun h => Option.noConfusion h⟩
      · rcases dispatchEndpoint_cases env ev _ _ with ⟨op, hmem, heq⟩ | heq | heq | heq
        · rw [heq, runOpOut_invoked]
          constructor <;> intro h <;> (injection h with h2; subst h2; revert hmem; decide)
        all_goals rw [heq]
        all_goals exact ⟨fun h => Option.noConfusion h, fun h => Option.noConfusion h⟩

/-! Claim C9. -/

/-- Counterexample to claim C9: the event with path /nope reaches the 404
branch, but its available_endpoints list has only eleven entries, so it
cannot contain twelve operation routes plus /health (thirteen distinct
entries). -/
theorem c9_counterexample :
    (lambdaHandler envOk evNope).resp.statusCode = 404 ∧
    availCount (lambdaHandler envOk evNope).bodyVal = 11 := by
  exact ⟨rfl, rfl⟩

/-- Claim C9 as amended: a non-OPTIONS event that routes to no endpoint
and whose parameters extract without error yields a 404 whose
available_endpoints list has exactly these eleven entries — /health, the
ten wired operation routes, with the fiscal route suffixed as legacy (the
store-document and search-similar-documents operations have no route and
are absent) — plus a timestamp. -/
theorem c9_amended (env : Env) (ev : Bag) (p : Bag)
    (hopt : optionsCheck ev = false)
    (hend : getEndpointE ev = .ok "unknown")
    (hp : extractParamsE ev = .ok p) :
    (lambdaHandler env ev).resp.statusCode = 404 ∧
    fieldD (lambdaHandler env ev).bodyVal "available_endpoints" = .arr
      [.str "/health", .str "/generate-embedding", .str "/create-embedding",
       .str "/store-document-chunk", .str "/search-chunks", .str "/chat-classroom",
       .str "/classroom-info", .str "/professor-assistant", .str "/generate-resources",
       .str "/analyze-user-context", .str "/fiscal-advice (legacy)"] ∧
    fieldD (lambdaHandler env ev).bodyVal "timestamp" = .str env.nowIso := by
  unfold lambdaHandler
  simp [hopt, hend, hp, dispatchEndpoint, mkOut, createResponse, notFoundBody, fieldD, getB]

/-- Witness for c9_amended at the concrete /nope event. -/
theorem c9_amended_witness :
    (lambdaHandler envOk evNope).resp.statusCode = 404 ∧
    fieldD (lambdaHandler envOk evNope).bodyVal "available_endpoints" = .arr
      [.str "/health", .str "/generate-embedding", .str "/create-embedding",
       .str "/store-document-chunk", .str "/search-chunks", .str "/chat-classroom",
       .str "/classroom-info", .str "/professor-assistant", .str "/generate-resources",
       .str "/analyze-user-context", .str "/fiscal-advice (legacy)"] ∧
    fieldD (lambdaHandler envOk evNope).bodyVal "timestamp" = .str envOk.nowIso :=
  c9_amended envOk evNope evNope rfl rfl rfl

/-! Claim C7. -/

/-- Counterexample to claim C7: the code trims the response text before
scanning for data lines, the specification's scan does not; on the
event-stream body consisting of one line with leading whitespace before
the data prefix, the code parses the remainder while the specification's
algorithm keeps the raw text. -/
theorem c7_counterexample :
    processBody jsonParse "text/event-stream" " data: 1" = .num (some 1) ∧
    specProcessBody jsonParse "text/event-stream" " data: 1" = .str " data: 1" :=
  ⟨rfl, rfl⟩

/-- Claim C7 as amended: the body-parsing policy of `makeHttpRequest`
coincides with the specification text applied to the TRIMMED response
text, for any JSON parser that rejects the empty string and rejects every
text one of whose trimmed lines starts with the data prefix (both hold of
JSON: no JSON document contains a line starting with "data: ", and the
empty string is not a document) — in particular only the first data line
is honored and a total parse failure keeps the raw text, never an
exception. -/
theorem c7_sse_parsing_matches_trimmed_spec (jp : String → Option JVal)
    (hdata : ∀ s, hasDataLine s = true → jp s = none)
    (hempty : jp "" = none) (contentType data : String) :
    processBody jp contentType data = specProcessBodyTrim jp contentType data := by
  unfold processBody specProcessBodyTrim firstDataLine
  by_cases hsse : containsSub contentType "text/event-stream" = true
  · simp only [hsse, if_true]
    cases hfind : (splitLines (jTrim data)).find? (fun l => startsWithStr l "data: ") with
    | none => simp
    | some l =>
      simp only [Option.map_some, Option.getD_some]
      by_cases hnil : dropStr l 6 = ""
      · simp [hnil, hempty]
      · simp only [if_pos hnil, ne_eq]
        cases hjp : jp (dropStr l 6) with
        | some v => simp [hnil, hjp]
        | none =>
          have hmem : hasDataLine data = true := by
            unfold hasDataLine
            have hl := List.find?_some hfind
            have hm := List.mem_of_find?_eq_some hfind
            exact List.any_eq_true.mpr ⟨l, hm, hl⟩
          simp [hnil, hjp, hdata data hmem]
  · simp [hsse]

/-- Witness for c7_sse_parsing_matches_trimmed_spec at a concrete parser
and frame. -/
theorem c7_sse_parsing_matches_trimmed_spec_witness :
    processBody (fun _ => none) "text/event-stream" "data: x" =
      specProcessBodyTrim (fun _ => none) "text/event-stream" "data: x" :=
  c7_sse_parsing_matches_trimmed_spec (fun _ => none) (fun _ _ => rfl) rfl
    "text/event-stream" "data: x"

/-! Claim C5. -/

/-- The JSON parser never yields the undefined value. -/
theorem parseJsonVal_ne_undef (fuel : Nat) (cs : List Char) (v : JVal) (rest : List Char)
    (h : parseJsonVal fuel cs = some (v, rest)) : v ≠ JVal.undef := by
  intro hv
  subst hv
  cases fuel with
  | zero => exact absurd h (by simp [parseJsonVal])
  | succ n =>
    unfold parseJsonVal at h
    split at h <;> (try split at h) <;> simp_all [Option.map_eq_some']

/-- Model of JSON.parse never yields the undefined value. -/
theorem jsonParse_ne_undef (s : String) (v : JVal) (h : jsonParse s = some v) :
    v ≠ JVal.undef := by
  intro hv
  subst hv
  unfold jsonParse at h
  split at h
  · rename_i p heq
    split at h
    · injection h with h1
      exact absurd heq (by intro hq; exact parseJsonVal_ne_undef _ _ _ _ (h1 ▸ hq) rfl)
    · cases h
  · cases h

/-- The parsed (or raw text) body of a backend response is never the
undefined value. -/
theorem processBody_ne_undef (ct data : String) :
    processBody jsonParse ct data ≠ JVal.undef := by
  unfold processBody
  split
  · by_cases hz : firstDataLine (splitLines (jTrim data)) ≠ ""
    · rw [if_pos hz]
      cases hj : jsonParse (firstDataLine (splitLines (jTrim data))) with
      | some v => exact jsonParse_ne_undef _ _ hj
      | none => exact fun h => JVal.noConfusion h
    · rw [if_neg hz]
      cases hj : jsonParse data with
      | some v => exact jsonParse_ne_undef _ _ hj
      | none => exact fun h => JVal.noConfusion h
  · cases hj : jsonParse data with
    | some v => exact jsonParse_ne_undef _ _ hj
    | none => exact fun h => JVal.noConfusion h

/-- Property access on a non-nullish value never throws. -/
theorem jsGetF_ok (v : JVal) (k : String) (h1 : v ≠ JVal.null) (h2 : v ≠ JVal.undef) :
    jsGetF v k = .ok (fieldD v k) := by
  cases v <;> first
    | rfl
    | exact absurd rfl h1
    | exact absurd rfl h2

/-- Counterexample to claim C5: a 200 body that contains a result field
whose value is false is returned whole — the adapter tests the field's
truthiness, not its presence, so the claim's unwrap does not happen. -/
theorem c5_counterexample :
    (callMcpTool envResultFalse "tool" (.obj [])).result = .ok (.obj [("result", .bool false)]) ∧
    (callMcpTool envResultFalse "tool" (.obj [])).result ≠ .ok (.bool false) :=
  ⟨rfl, fun h => JVal.noConfusion (Except.ok.inj h)⟩

/-- Claim C5 as amended: on a backend 200, the adapter unwraps the result
field of the parsed body only when that field is truthy; when it is
absent or falsy the parsed body itself is the payload; a null parsed body
makes the property read throw, surfacing as a wrapped connection
error. -/
theorem c5_result_unwrap (env : Env) (name : String) (args : JVal) (raw : RawResp)
    (hb : env.backend (mcpHttpReq env name args) = .ok raw)
    (h200 : raw.statusCode = 200) :
    (processBody jsonParse (contentTypeOf raw.headers) raw.data ≠ .null →
      (callMcpTool env name args).result = .ok
        (if truthy (fieldD (processBody jsonParse (contentTypeOf raw.headers) raw.data) "result") = true
         then fieldD (processBody jsonParse (contentTypeOf raw.headers) raw.data) "result"
         else processBody jsonParse (contentTypeOf raw.headers) raw.data)) ∧
    (processBody jsonParse (contentTypeOf raw.headers) raw.data = .null →
      (callMcpTool env name args).result = .error
        ("Error conectando con MCP: Cannot read properties of null (reading \x27result\x27)")) := by
  have hnu := processBody_ne_undef (contentTypeOf raw.headers) raw.data
  constructor
  · intro hnn
    simp only [callMcpTool, performReq, hb, h200]
    rw [jsGetF_ok _ _ hnn hnu]
    by_cases ht : truthy (fieldD (processBody jsonParse (contentTypeOf raw.headers) raw.data) "result") = true
    · simp [ht]
    · simp [ht]
  · intro hn
    simp only [callMcpTool, performReq, hb, h200, hn]
    simp [jsGetF]

/-- Witness for c5_result_unwrap: a 200 body without a result field is
returned whole. -/
theorem c5_result_unwrap_witness :
    (callMcpTool envPlainObj "tool" (.obj [])).result = .ok (.obj [("x", .num (some 1))]) :=
  (c5_result_unwrap envPlainObj "tool" (.obj []) rawPlainObj rfl rfl).1
    (fun h => JVal.noConfusion h)

/-! Claim C6. -/

/-- A list is a prefix of itself. -/
theorem isPrefixOf_self (l : List Char) : l.isPrefixOf l = true := by
  induction l with
  | nil => rfl
  | cons c cs ih => simp [List.isPrefixOf, ih]

/-- Substring search finds the pattern in itself. -/
theorem containsSubList_refl (l : List Char) : containsSubList l l = true := by
  cases l with
  | nil => rfl
  | cons c cs => simp [containsSubList, isPrefixOf_self]

/-- Substring search finds a suffix. -/
theorem containsSubList_append (xs ys : List Char) :
    containsSubList (xs ++ ys) ys = true := by
  induction xs with
  | nil => simpa using containsSubList_refl ys
  | cons x xs ih =>
    cases ys with
    | nil => simp [containsSubList]
    | cons y ys2 => simp [containsSubList, ih]

/-- A string contains every one of its suffixes. -/
theorem containsSub_append (a s : String) : containsSub (a ++ s) s = true := by
  unfold containsSub
  have : (a ++ s).toList = a.toList ++ s.toList := by
    simp [String.toList]
  rw [this]
  exact containsSubList_append _ _

/-- The alternate transport issues exactly one request. -/
theorem callMcpAlternative_trace (env : Env) (n : String) (a : JVal) :
    (callMcpAlternative env n a).trace = [altHttpReq env n a] := by
  cases h : performReq env (altHttpReq env n a) with
  | error e => simp [callMcpAlternative, h]
  | ok resp => by_cases h2 : resp.statusCode = 200 <;> simp [callMcpAlternative, h, h2]

/-- A string contains the suffix of a doubly prefixed concatenation. -/
theorem containsSub_wrap (a b s : String) : containsSub (a ++ (b ++ s)) s = true := by
  unfold containsSub
  have : (a ++ (b ++ s)).toList = (a.toList ++ b.toList) ++ s.toList := by
    simp [String.toList]
  rw [this]
  exact containsSubList_append _ _

/-- Field access reduction lemmas used to push property reads through
the constructors. -/
theorem fieldD_bool (b : Bool) (k : String) : fieldD (.bool b) k = .undef := rfl

/-- Field access on a number yields undefined. -/
theorem fieldD_num (q : Option Rat) (k : String) : fieldD (.num q) k = .undef := rfl

/-- Field access on a string yields undefined. -/
theorem fieldD_str (s : String) (k : String) : fieldD (.str s) k = .undef := rfl

/-- Field access on an array yields undefined. -/
theorem fieldD_arr (xs : List JVal) (k : String) : fieldD (.arr xs) k = .undef := rfl

/-- Field access on an object is list lookup. -/
theorem fieldD_obj (fs : Bag) (k : String) : fieldD (.obj fs) k = getB fs k := rfl

/-- Undefined is falsy. -/
theorem truthy_undef : truthy .undef = false := rfl

/-- Claim C6: on a non-200 backend response whose parsed body is a
JSON-RPC error object with code -32600, the adapter issues exactly one
additional POST of the raw tool arguments (no JSON-RPC envelope) to the
alternate tools/name/call endpoint, returning that response's parsed body
on HTTP 200 and failing otherwise; every other non-200 response fails
directly, with no additional call, on an error message carrying the
serialized backend body. -/
theorem c6_alternate_transport (env : Env) (name : String) (args : JVal) (raw : RawResp)
    (hb : env.backend (mcpHttpReq env name args) = .ok raw)
    (hn200 : raw.statusCode ≠ 200) :
    (isRpc32600 (processBody jsonParse (contentTypeOf raw.headers) raw.data) = true →
      (callMcpTool env name args).trace = [mcpHttpReq env name args, altHttpReq env name args] ∧
      (altHttpReq env name args).method = "POST" ∧
      (altHttpReq env name args).url = mcpServerUrl env ++ "/tools/" ++ name ++ "/call" ∧
      (altHttpReq env name args).body = some args ∧
      (∀ raw2, env.backend (altHttpReq env name args) = .ok raw2 → raw2.statusCode = 200 →
        (callMcpTool env name args).result =
          .ok (processBody jsonParse (contentTypeOf raw2.headers) raw2.data)) ∧
      (∀ raw2, env.backend (altHttpReq env name args) = .ok raw2 → raw2.statusCode ≠ 200 →
        callFailed (callMcpTool env name args) = true) ∧
      (∀ e, env.backend (altHttpReq env name args) = .error e →
        callFailed (callMcpTool env name args) = true)) ∧
    (isRpc32600 (processBody jsonParse (contentTypeOf raw.headers) raw.data) = false →
      (callMcpTool env name args).trace = [mcpHttpReq env name args] ∧
      callErrContains (callMcpTool env name args)
        (jsonStringify (processBody jsonParse (contentTypeOf raw.headers) raw.data)) = true) := by
  generalize hB : processBody jsonParse (contentTypeOf raw.headers) raw.data = B
  have halt := callMcpAlternative_trace env name args
  have hreq : mcpHttpReq env name args = mcpHttpReq env name args := rfl
  cases B with
  | null =>
    have hcall : callMcpTool env name args =
        { result := .error ("Error conectando con MCP: " ++
            "Cannot read properties of null (reading \x27error\x27)"),
          trace := [mcpHttpReq env name args] } := by
      simp [callMcpTool, performReq, hb, hB, hn200, jsGetF]
    refine ⟨fun h => Bool.noConfusion h, fun _ => ?_⟩
    rw [hcall]
    exact ⟨rfl, rfl⟩
  | undef =>
    have hcall : callMcpTool env name args =
        { result := .error ("Error conectando con MCP: " ++
            "Cannot read properties of undefined (reading \x27error\x27)"),
          trace := [mcpHttpReq env name args] } := by
      simp [callMcpTool, performReq, hb, hB, hn200, jsGetF]
    refine ⟨fun h => Bool.noConfusion h, fun _ => ?_⟩
    rw [hcall]
    exact ⟨rfl, rfl⟩
  | bool b =>
    have hcall : callMcpTool env name args =
        { result := .error ("Error conectando con MCP: " ++
            ("Error MCP: " ++ jsonStringify (JVal.bool b))),
          trace := [mcpHttpReq env name args] } := by
      simp [callMcpTool, performReq, hb, hB, hn200, jsGetF, fieldD_bool, truthy_undef]
    refine ⟨fun h => Bool.noConfusion h, fun _ => ?_⟩
    rw [hcall]
    exact ⟨rfl, by simp [callErrContains, containsSub_wrap]⟩
  | num q =>
    have hcall : callMcpTool env name args =
        { result := .error ("Error conectando con MCP: " ++
            ("Error MCP: " ++ jsonStringify (JVal.num q))),
          trace := [mcpHttpReq env name args] } := by
      simp [callMcpTool, performReq, hb, hB, hn200, jsGetF, fieldD_num, truthy_undef]
    refine ⟨fun h => Bool.noConfusion h, fun _ => ?_⟩
    rw [hcall]
    exact ⟨rfl, by simp [callErrContains, containsSub_wrap]⟩
  | str s =>
    have hcall : callMcpTool env name args =
        { result := .error ("Error conectando con MCP: " ++
            ("Error MCP: " ++ jsonStringify (JVal.str s))),
          trace := [mcpHttpReq env name args] } := by
      simp [callMcpTool, performReq, hb, hB, hn200, jsGetF, fieldD_str, truthy_undef]
    refine ⟨fun h => Bool.noConfusion h, fun _ => ?_⟩
    rw [hcall]
    exact ⟨rfl, by simp [callErrContains, containsSub_wrap]⟩
  | arr xs =>
    have hcall : callMcpTool env name args =
        { result := .error ("Error conectando con MCP: " ++
            ("Error MCP: " ++ jsonStringify (JVal.arr xs))),
          trace := [mcpHttpReq env name args] } := by
      simp [callMcpTool, performReq, hb, hB, hn200, jsGetF, fieldD_arr, truthy_undef]
    refine ⟨fun h => Bool.noConfusion h, fun _ => ?_⟩
    rw [hcall]
    exact ⟨rfl, by simp [callErrContains, containsSub_wrap]⟩
  | obj fs =>
    have hiso : isRpc32600 (.obj fs) =
        (truthy (getB fs "error") && jsStrictEqNum (fieldD (getB fs "error") "code") (-32600)) :=
      rfl
    constructor
    · intro h
      rw [hiso] at h
      obtain ⟨h1, h2⟩ := Bool.and_eq_true_iff.mp h
      have hinner : ∀ r tr, (callMcpAlternative env name args) = { result := r, trace := tr } →
          callMcpTool env name args =
            match r with
            | .ok v => { result := .ok v, trace := mcpHttpReq env name args :: tr }
            | .error e => { result := .error ("Error conectando con MCP: " ++ e),
                            trace := mcpHttpReq env name args :: tr } := by
        intro r tr hr
        cases r with
        | ok v => simp [callMcpTool, performReq, hb, hB, hn200, jsGetF, fieldD_obj, h1, h2, hr]
        | error e => simp [callMcpTool, performReq, hb, hB, hn200, jsGetF, fieldD_obj, h1, h2, hr]
      have hca := hinner (callMcpAlternative env name args).result
        (callMcpAlternative env name args).trace rfl
      refine ⟨?_, rfl, rfl, rfl, ?_, ?_, ?_⟩
      · rw [hca]
        cases hr : (callMcpAlternative env name args).result <;> simp [hr, halt]
      · intro raw2 hb2 h2200
        have halt2 : (callMcpAlternative env name args).result =
            .ok (processBody jsonParse (contentTypeOf raw2.headers) raw2.data) := by
          simp [callMcpAlternative, performReq, hb2, h2200]
        rw [hca, halt2]
      · intro raw2 hb2 h2n200
        have halt2 : (callMcpAlternative env name args).result =
            .error ("Error en método alternativo: " ++ jsonStringify
              (processBody jsonParse (contentTypeOf raw2.headers) raw2.data)) := by
          simp [callMcpAlternative, performReq, hb2, h2n200]
        rw [hca, halt2]
        rfl
      · intro e hb2
        have halt2 : (callMcpAlternative env name args).result = .error e := by
          simp [callMcpAlternative, performReq, hb2]
        rw [hca, halt2]
        rfl
    · intro h
      rw [hiso] at h
      by_cases ht : truthy (getB fs "error") = true
      · have hc : jsStrictEqNum (fieldD (getB fs "error") "code") (-32600) = false := by
          cases hcc : jsStrictEqNum (fieldD (getB fs "error") "code") (-32600) with
          | true => rw [ht, hcc] at h; cases h
          | false => rfl
        have hcall : callMcpTool env name args =
            { result := .error ("Error conectando con MCP: " ++
                ("Error MCP: " ++ jsonStringify (JVal.obj fs))),
              trace := [mcpHttpReq env name args] } := by
          simp [callMcpTool, performReq, hb, hB, hn200, jsGetF, fieldD_obj, ht, hc]
        rw [hcall]
        exact ⟨rfl, by simp [callErrContains, containsSub_wrap]⟩
      · have hcall : callMcpTool env name args =
            { result := .error ("Error conectando con MCP: " ++
                ("Error MCP: " ++ jsonStringify (JVal.obj fs))),
              trace := [mcpHttpReq env name args] } := by
          simp [callMcpTool, performReq, hb, hB, hn200, jsGetF, fieldD_obj, ht]
        rw [hcall]
        exact ⟨rfl, by simp [callErrContains, containsSub_wrap]⟩

/-- Witness for c6_alternate_transport: the mocked -32600 backend makes
the adapter issue exactly one additional call and return the alternate
body. -/
theorem c6_alternate_transport_witness :
    (callMcpTool env32600 "tool" (.obj [("a", .num (some 1))])).trace =
      [mcpHttpReq env32600 "tool" (.obj [("a", .num (some 1))]),
       altHttpReq env32600 "tool" (.obj [("a", .num (some 1))])] ∧
    (callMcpTool env32600 "tool" (.obj [("a", .num (some 1))])).result =
      .ok (.obj [("ok", .num (some 1))]) := by
  have h := c6_alternate_transport env32600 "tool" (.obj [("a", .num (some 1))]) raw32600
    rfl (by decide)
  have h1 := h.1 (by rfl)
  exact ⟨h1.1, h1.2.2.2.2.1 rawAltOk rfl rfl⟩

/-! Claim C8. -/

/-- The first request of any tool call is the JSON-RPC request to the
/mcp endpoint. -/
theorem callMcpTool_trace_shape (env : Env) (n : String) (a : JVal) :
    ∃ rest, (callMcpTool env n a).trace = mcpHttpReq env n a :: rest := by
  cases hp : performReq env (mcpHttpReq env n a) with
  | error e => exact ⟨[], by simp [callMcpTool, hp]⟩
  | ok resp =>
    by_cases s200 : resp.statusCode = 200
    · cases hg : jsGetF resp.body "result" with
      | error e => exact ⟨[], by simp [callMcpTool, hp, s200, hg]⟩
      | ok r =>
        by_cases ht : truthy r = true
        · exact ⟨[], by simp [callMcpTool, hp, s200, hg, ht]⟩
        · exact ⟨[], by simp [callMcpTool, hp, s200, hg, ht]⟩
    · cases hg : jsGetF resp.body "error" with
      | error e => exact ⟨[], by simp [callMcpTool, hp, s200, hg]⟩
      | ok errv =>
        by_cases ht : truthy errv = true
        · by_cases hc : jsStrictEqNum (fieldD errv "code") (-32600) = true
          · refine ⟨(callMcpAlternative env n a).trace, ?_⟩
            cases hr : (callMcpAlternative env n a).result <;>
              simp [callMcpTool, hp, s200, hg, ht, hc, hr]
          · exact ⟨[], by simp [callMcpTool, hp, s200, hg, ht, hc]⟩
        · exact ⟨[], by simp [callMcpTool, hp, s200, hg, ht]⟩

/-- The head of a nonempty tool-call trace is the JSON-RPC request. -/
theorem callMcpTool_first_req (env : Env) (n : String) (a : JVal) (req : HttpReq)
    (rest : List HttpReq) (h : (callMcpTool env n a).trace = req :: rest) :
    req = mcpHttpReq env n a := by
  obtain ⟨r2, hr2⟩ := callMcpTool_trace_shape env n a
  rw [hr2] at h
  injection h with h1 h2
  exact h1.symm

/-- The JSON-RPC request satisfies the envelope shape whenever its
arguments have the right nesting. -/
theorem envelopeOk_mcp (env : Env) (op : Op) (args : JVal)
    (hk : hasKeyB args "request" =
      (match op with | .fiscalAdvice => true | .chatWithClassroom => true | _ => false)) :
    envelopeOk env op (mcpHttpReq env (toolNameOf op) args) := by
  exact ⟨rfl, rfl, rfl, rfl, rfl, rfl, congrArg some hk⟩

/-- The trace of a wrapped call is the call's trace. -/
theorem wrapCall_trace (c : CallOut) (f : JVal → Response) (g : String → Response) :
    (wrapCall c f g).trace = c.trace := by
  cases hr : c.result <;> simp [wrapCall, hr]

/-- Claim C8: whenever an operation issues a backend call, the first
request is a JSON-RPC envelope with method tools/call, an id of the form
call-timestamp and params naming the operation's tool; exactly the
fiscal-advice and chat-with-classroom operations nest their arguments one
level deeper under a request key, and no other operation does. -/
theorem c8_envelope_construction (op : Op) (env : Env) (bag : Bag) (req : HttpReq)
    (rest : List HttpReq) (h : (runOp op env bag).trace = req :: rest) :
    envelopeOk env op req := by
  cases op <;>
    simp only [runOp, handleMcpFiscalAdvice, handleMcpGenerateEmbedding, handleMcpStoreDocument,
      handleMcpSearchSimilarDocuments, handleMcpStoreDocumentChunk, handleMcpSearchSimilarChunks,
      handleMcpChatWithClassroom, handleMcpGetClassroomInfo, handleMcpCreateEmbedding,
      handleMcpProfessorAssistant, handleMcpGenerateResources, handleMcpAnalyzeUserContext] at h <;>
    (iterate 10 (all_goals try split at h)) <;>
    first
      | (simp [retNoCall] at h; done)
      | (simp only [wrapCall_trace] at h
         have hreq := callMcpTool_first_req _ _ _ _ _ h
         subst hreq
         exact envelopeOk_mcp _ _ _ rfl)

/-- On a string-safe value the guard cannot throw. -/
theorem mob_not_error (name : String) (v : JVal) (h : strSafe v = true) (e : String) :
    jsMissingOrBlank name v ≠ .error e := by
  rcases mob_cases name v h with h1 | ⟨s, -, h1⟩ <;> rw [h1] <;>
    exact fun hh => Except.noConfusion hh

/-- Claim C1 as amended: for every operation and every parameter bag whose
string-subjected parameters are strings whenever truthy, the operation
returns a statusCode/body pair (never throws past its boundary), the
status is 200, 400 or 500, and every 500 body carries the error message
as a string and a timestamp, plus an operation-specific hint for every
operation except fiscal advice, whose 500 body has no hint. -/
theorem c1_boundary (op : Op) (env : Env) (bag : Bag) (hs : strSafeBag op bag = true) :
    houtThrew (runOp op env bag) = false ∧
    (houtStatus (runOp op env bag) = some 200 ∨ houtStatus (runOp op env bag) = some 400 ∨
      houtStatus (runOp op env bag) = some 500) ∧
    (houtStatus (runOp op env bag) = some 500 →
      errIsStr (runOp op env bag) = true ∧
      respField (runOp op env bag) "timestamp" = some (.str env.nowIso) ∧
      (op ≠ .fiscalAdvice → respHasKey (runOp op env bag) "hint" = true) ∧
      (op = .fiscalAdvice → respHasKey (runOp op env bag) "hint" = false)) := by
  cases op <;>
    simp only [strSafeBag, strOps, List.all_cons, List.all_nil, Bool.and_eq_true,
      and_true] at hs <;>
    simp only [runOp, handleMcpFiscalAdvice, handleMcpGenerateEmbedding, handleMcpStoreDocument,
      handleMcpSearchSimilarDocuments, handleMcpStoreDocumentChunk, handleMcpSearchSimilarChunks,
      handleMcpChatWithClassroom, handleMcpGetClassroomInfo, handleMcpCreateEmbedding,
      handleMcpProfessorAssistant, handleMcpGenerateResources, handleMcpAnalyzeUserContext,
      wrapCall] <;>
    (iterate 8 (all_goals try split)) <;>
    first
      | (simp [houtThrew, houtStatus, errIsStr, respField, respHasKey, hasKeyB, retNoCall,
           fieldD, getB, isUndef]
         done)
      | (rename_i e heq
         exact absurd heq (mob_not_error _ _
           (by first | exact hs | exact hs.1 | exact hs.2 | exact hs.2.1 | exact hs.2.2) e))

/-- Witness for c1_boundary: the classroom-info operation on an empty bag
under a failing backend. -/
theorem c1_boundary_witness :
    houtThrew (runOp Op.getClassroomInfo envOk []) = false ∧
    (houtStatus (runOp Op.getClassroomInfo envOk []) = some 200 ∨
      houtStatus (runOp Op.getClassroomInfo envOk []) = some 400 ∨
      houtStatus (runOp Op.getClassroomInfo envOk []) = some 500) ∧
    (houtStatus (runOp Op.getClassroomInfo envOk []) = some 500 →
      errIsStr (runOp Op.getClassroomInfo envOk []) = true ∧
      respField (runOp Op.getClassroomInfo envOk []) "timestamp" = some (.str envOk.nowIso) ∧
      (Op.getClassroomInfo ≠ Op.fiscalAdvice →
        respHasKey (runOp Op.getClassroomInfo envOk []) "hint" = true) ∧
      (Op.getClassroomInfo = Op.fiscalAdvice →
        respHasKey (runOp Op.getClassroomInfo envOk []) "hint" = false)) :=
  c1_boundary Op.getClassroomInfo envOk [] rfl

/-- Counterexample to claim C1: a truthy non-string text parameter makes
the generate-embedding operation throw a TypeError past its own boundary
(the guard calls .trim() on a number outside the try/catch) instead of
returning a statusCode/body pair. -/
theorem c1_counterexample :
    houtThrew (handleMcpGenerateEmbedding envOk [("text", JVal.num (some 42))]) = true := rfl

/-- Counterexample to claim C3: the fiscal-advice operation accepts a
blank-after-trim required parameter (its guard is plain truthiness, with
no trim), proceeds to the network and returns 200 — not the claimed
400-with-no-network-call. -/
theorem c3_counterexample :
    houtStatus (runOp Op.fiscalAdvice envOk [("actividad", JVal.str " ")]) = some 200 ∧
    (runOp Op.fiscalAdvice envOk [("actividad", JVal.str " ")]).trace ≠ [] :=
  ⟨rfl, fun h => List.noConfusion h⟩

/-- Claim C3 as amended: for every operation on a string-safe bag, when
the validation chain rejects a required parameter as missing (or blank,
except for fiscal advice whose guard is plain truthiness, and chunk_index
whose guard is a nullish check), the operation returns 400 with an error
message naming the field in quotes and a required list containing it,
with no network call; a corrective hint accompanies every such 400 except
the fiscal-advice one. -/
theorem c3_missing_param_400 (op : Op) (env : Env) (bag : Bag) (f : String)
    (hs : strSafeBag op bag = true) (hm : firstMissing op bag = some f) :
    houtStatus (runOp op env bag) = some 400 ∧
    errNames (runOp op env bag) f = true ∧
    reqListHas (runOp op env bag) f = true ∧
    (runOp op env bag).trace = [] ∧
    (op ≠ .fiscalAdvice → respHasKey (runOp op env bag) "hint" = true) ∧
    (op = .fiscalAdvice → respHasKey (runOp op env bag) "hint" = false) := by
  cases op with
  | fiscalAdvice =>
    simp only [firstMissing] at hm
    by_cases hc : truthy (getB bag "actividad") = false
    · rw [if_pos hc] at hm
      injection hm with hf
      subst hf
      simp only [runOp, handleMcpFiscalAdvice, hc, if_pos]
      exact ⟨rfl, by decide, by decide, rfl, by decide, by decide⟩
    · rw [if_neg hc] at hm
      cases hm
  | generateEmbedding =>
    simp only [strSafeBag, strOps, List.all_cons, List.all_nil, Bool.and_eq_true, and_true] at hs
    simp only [firstMissing] at hm
    by_cases hc : checkMOB (getB bag "text") = true
    · rw [if_pos hc] at hm
      injection hm with hf
      subst hf
      simp only [runOp, handleMcpGenerateEmbedding, (mob_none_iff "text" _ hs).mpr hc]
      exact ⟨rfl, by decide, by decide, rfl, by decide, by decide⟩
    · rw [if_neg hc] at hm
      cases hm
  | storeDocument =>
    simp only [strSafeBag, strOps, List.all_cons, List.all_nil, Bool.and_eq_true, and_true] at hs
    simp only [firstMissing] at hm
    by_cases hc : checkMOB (getB bag "text") = true
    · rw [if_pos hc] at hm
      injection hm with hf
      subst hf
      simp only [runOp, handleMcpStoreDocument, (mob_none_iff "text" _ hs).mpr hc]
      exact ⟨rfl, by decide, by decide, rfl, by decide, by decide⟩
    · rw [if_neg hc] at hm
      cases hm
  | searchSimilarDocuments =>
    simp only [strSafeBag, strOps, List.all_cons, List.all_nil, Bool.and_eq_true, and_true] at hs
    simp only [firstMissing] at hm
    by_cases hc : checkMOB (getB bag "query_text") = true
    · rw [if_pos hc] at hm
      injection hm with hf
      subst hf
      simp only [runOp, handleMcpSearchSimilarDocuments, (mob_none_iff "query_text" _ hs).mpr hc]
      exact ⟨rfl, by decide, by decide, rfl, by decide, by decide⟩
    · rw [if_neg hc] at hm
      cases hm
  | storeDocumentChunk =>
    simp only [strSafeBag, strOps, List.all_cons, List.all_nil, Bool.and_eq_true, and_true] at hs
    obtain ⟨hs1, hs2⟩ := hs
    simp only [firstMissing] at hm
    by_cases hc : checkMOB (getB bag "classroom_document_id") = true
    · rw [if_pos hc] at hm
      injection hm with hf
      subst hf
      simp only [runOp, handleMcpStoreDocumentChunk,
        (mob_none_iff "classroom_document_id" _ hs1).mpr hc]
      exact ⟨rfl, by decide, by decide, rfl, by decide, by decide⟩
    · rw [if_neg hc] at hm
      rcases mob_cases "classroom_document_id" (getB bag "classroom_document_id") hs1 with
        h1 | ⟨s1, -, h1⟩
      · exact absurd ((mob_none_iff _ _ hs1).mp h1) hc
      · by_cases hn : isNullish (getB bag "chunk_index") = true
        · rw [if_pos hn] at hm
          injection hm with hf
          subst hf
          cases hv : getB bag "chunk_index" <;> rw [hv] at hn <;>
            first
              | exact Bool.noConfusion hn
              | (simp only [runOp, handleMcpStoreDocumentChunk, h1, hv]
                 exact ⟨rfl, by decide, by decide, rfl, by decide, by decide⟩)
        · rw [if_neg hn] at hm
          by_cases hc2 : checkMOB (getB bag "content") = true
          · rw [if_pos hc2] at hm
            injection hm with hf
            subst hf
            cases hv : getB bag "chunk_index" <;> rw [hv] at hn <;>
              first
                | exact absurd rfl hn
                | (simp only [runOp, handleMcpStoreDocumentChunk, h1, hv,
                     (mob_none_iff "content" _ hs2).mpr hc2]
                   exact ⟨rfl, by decide, by decide, rfl, by decide, by decide⟩)
          · rw [if_neg hc2] at hm
            cases hm
  | searchSimilarChunks =>
    simp only [strSafeBag, strOps, List.all_cons, List.all_nil, Bool.and_eq_true, and_true] at hs
    obtain ⟨hs1, hs2⟩ := hs
    simp only [firstMissing] at hm
    by_cases hc : checkMOB (getB bag "query_text") = true
    · rw [if_pos hc] at hm
      injection hm with hf
      subst hf
      simp only [runOp, handleMcpSearchSimilarChunks, (mob_none_iff "query_text" _ hs1).mpr hc]
      exact ⟨rfl, by decide, by decide, rfl, by decide, by decide⟩
    · rw [if_neg hc] at hm
      rcases mob_cases "query_text" (getB bag "query_text") hs1 with h1 | ⟨s1, -, h1⟩
      · exact absurd ((mob_none_iff _ _ hs1).mp h1) hc
      · by_cases hc2 : checkMOB (getB bag "classroom_id") = true
        · rw [if_pos hc2] at hm
          injection hm with hf
          subst hf
          simp only [runOp, handleMcpSearchSimilarChunks, h1,
            (mob_none_iff "classroom_id" _ hs2).mpr hc2]
          exact ⟨rfl, by decide, by decide, rfl, by decide, by decide⟩
        · rw [if_neg hc2] at hm
          cases hm
  | chatWithClassroom =>
    simp only [strSafeBag, strOps, List.all_cons, List.all_nil, Bool.and_eq_true, and_true] at hs
    obtain ⟨hs1, hs2⟩ := hs
    simp only [firstMissing] at hm
    by_cases hc : checkMOB (getB bag "message") = true
    · rw [if_pos hc] at hm
      injection hm with hf
      subst hf
      simp only [runOp, handleMcpChatWithClassroom, (mob_none_iff "message" _ hs1).mpr hc]
      exact ⟨rfl, by decide, by decide, rfl, by decide, by decide⟩
    · rw [if_neg hc] at hm
      rcases mob_cases "message" (getB bag "message") hs1 with h1 | ⟨s1, -, h1⟩
      · exact absurd ((mob_none_iff _ _ hs1).mp h1) hc
      · by_cases hc2 : checkMOB (getB bag "classroom_id") = true
        · rw [if_pos hc2] at hm
          injection hm with hf
          subst hf
          simp only [runOp, handleMcpChatWithClassroom, h1,
            (mob_none_iff "classroom_id" _ hs2).mpr hc2]
          exact ⟨rfl, by decide, by decide, rfl, by decide, by decide⟩
        · rw [if_neg hc2] at hm
          cases hm
  | getClassroomInfo =>
    simp only [strSafeBag, strOps, List.all_cons, List.all_nil, Bool.and_eq_true, and_true] at hs
    simp only [firstMissing] at hm
    by_cases hc : checkMOB (getB bag "classroom_id") = true
    · rw [if_pos hc] at hm
      injection hm with hf
      subst hf
      simp only [runOp, handleMcpGetClassroomInfo, (mob_none_iff "classroom_id" _ hs).mpr hc]
      exact ⟨rfl, by decide, by decide, rfl, by decide, by decide⟩
    · rw [if_neg hc] at hm
      cases hm
  | createEmbedding =>
    simp only [strSafeBag, strOps, List.all_cons, List.all_nil, Bool.and_eq_true, and_true] at hs
    obtain ⟨hs1, hs2⟩ := hs
    simp only [firstMissing] at hm
    by_cases hc : checkMOB (getB bag "text") = true
    · rw [if_pos hc] at hm
      injection hm with hf
      subst hf
      simp only [runOp, handleMcpCreateEmbedding, (mob_none_iff "text" _ hs1).mpr hc]
      exact ⟨rfl, by decide, by decide, rfl, by decide, by decide⟩
    · rw [if_neg hc] at hm
      rcases mob_cases "text" (getB bag "text") hs1 with h1 | ⟨s1, -, h1⟩
      · exact absurd ((mob_none_iff _ _ hs1).mp h1) hc
      · by_cases hc2 : checkMOB (getB bag "classroom_id") = true
        · rw [if_pos hc2] at hm
          injection hm with hf
          subst hf
          simp only [runOp, handleMcpCreateEmbedding, h1,
            (mob_none_iff "classroom_id" _ hs2).mpr hc2]
          exact ⟨rfl, by decide, by decide, rfl, by decide, by decide⟩
        · rw [if_neg hc2] at hm
          cases hm
  | professorAssistant =>
    simp only [strSafeBag, strOps, List.all_cons, List.all_nil, Bool.and_eq_true, and_true] at hs
    obtain ⟨hs1, hs2⟩ := hs
    simp only [firstMissing] at hm
    by_cases hc : checkMOB (getB bag "question") = true
    · rw [if_pos hc] at hm
      injection hm with hf
      subst hf
      simp only [runOp, handleMcpProfessorAssistant, (mob_none_iff "question" _ hs1).mpr hc]
      exact ⟨rfl, by decide, by decide, rfl, by decide, by decide⟩
    · rw [if_neg hc] at hm
      rcases mob_cases "question" (getB bag "question") hs1 with h1 | ⟨s1, -, h1⟩
      · exact absurd ((mob_none_iff _ _ hs1).mp h1) hc
      · by_cases hc2 : checkMOB (getB bag "classroom_id") = true
        · rw [if_pos hc2] at hm
          injection hm with hf
          subst hf
          simp only [runOp, handleMcpProfessorAssistant, h1,
            (mob_none_iff "classroom_id" _ hs2).mpr hc2]
          exact ⟨rfl, by decide, by decide, rfl, by decide, by decide⟩
        · rw [if_neg hc2] at hm
          cases hm
  | generateResources =>
    simp only [strSafeBag, strOps, List.all_cons, List.all_nil, Bool.and_eq_true, and_true] at hs
    obtain ⟨hs1, hs2, hs3⟩ := hs
    simp only [firstMissing] at hm
    by_cases hc : checkMOB (getB bag "classroom_id") = true
    · rw [if_pos hc] at hm
      injection hm with hf
      subst hf
      simp only [runOp, handleMcpGenerateResources, (mob_none_iff "classroom_id" _ hs1).mpr hc]
      exact ⟨rfl, by decide, by decide, rfl, by decide, by decide⟩
    · rw [if_neg hc] at hm
      rcases mob_cases "classroom_id" (getB bag "classroom_id") hs1 with h1 | ⟨s1, -, h1⟩
      · exact absurd ((mob_none_iff _ _ hs1).mp h1) hc
      · by_cases hc2 : checkMOB (getB bag "resource_type") = true
        · rw [if_pos hc2] at hm
          injection hm with hf
          subst hf
          simp only [runOp, handleMcpGenerateResources, h1,
            (mob_none_iff "resource_type" _ hs2).mpr hc2]
          exact ⟨rfl, by decide, by decide, rfl, by decide, by decide⟩
        · rw [if_neg hc2] at hm
          rcases mob_cases "resource_type" (getB bag "resource_type") hs2 with h2 | ⟨s2, hv2, h2⟩
          · exact absurd ((mob_none_iff _ _ hs2).mp h2) hc2
          · simp only [hv2] at hm
            by_cases he : lowerStr s2 = "pdf" ∨ lowerStr s2 = "ppt"
            · rw [if_neg (not_not_intro he)] at hm
              by_cases hc3 : checkMOB (getB bag "user_id") = true
              · rw [if_pos hc3] at hm
                injection hm with hf
                subst hf
                simp only [runOp, handleMcpGenerateResources, h1, h2, if_neg (not_not_intro he),
                  (mob_none_iff "user_id" _ hs3).mpr hc3]
                exact ⟨rfl, by decide, by decide, rfl, by decide, by decide⟩
              · rw [if_neg hc3] at hm
                cases hm
            · rw [if_pos he] at hm
              cases hm
  | analyzeUserContext =>
    simp only [strSafeBag, strOps, List.all_cons, List.all_nil, Bool.and_eq_true, and_true] at hs
    obtain ⟨hs1, hs2⟩ := hs
    simp only [firstMissing] at hm
    by_cases hc : checkMOB (getB bag "user_id") = true
    · rw [if_pos hc] at hm
      injection hm with hf
      subst hf
      simp only [runOp, handleMcpAnalyzeUserContext, (mob_none_iff "user_id" _ hs1).mpr hc]
      exact ⟨rfl, by decide, by decide, rfl, by decide, by decide⟩
    · rw [if_neg hc] at hm
      rcases mob_cases "user_id" (getB bag "user_id") hs1 with h1 | ⟨s1, -, h1⟩
      · exact absurd ((mob_none_iff _ _ hs1).mp h1) hc
      · by_cases hc2 : checkMOB (getB bag "session_id") = true
        · rw [if_pos hc2] at hm
          injection hm with hf
          subst hf
          simp only [runOp, handleMcpAnalyzeUserContext, h1,
            (mob_none_iff "session_id" _ hs2).mpr hc2]
          exact ⟨rfl, by decide, by decide, rfl, by decide, by decide⟩
        · rw [if_neg hc2] at hm
          cases hm

/-- Witness for c3_missing_param_400: chat-with-classroom on an empty
bag rejects the message parameter. -/
theorem c3_missing_param_400_witness :
    houtStatus (runOp Op.chatWithClassroom envOk []) = some 400 ∧
    errNames (runOp Op.chatWithClassroom envOk []) "message" = true ∧
    reqListHas (runOp Op.chatWithClassroom envOk []) "message" = true ∧
    (runOp Op.chatWithClassroom envOk []).trace = [] ∧
    (Op.chatWithClassroom ≠ Op.fiscalAdvice →
      respHasKey (runOp Op.chatWithClassroom envOk []) "hint" = true) ∧
    (Op.chatWithClassroom = Op.fiscalAdvice →
      respHasKey (runOp Op.chatWithClassroom envOk []) "hint" = false) :=
  c3_missing_param_400 Op.chatWithClassroom envOk [] "message" rfl rfl

/-- Shape of every response a handler returns (rather than throws): the
body is an object, 400 bodies never carry a timestamp, and every other
status carries one. -/
theorem runOp_bodyShape (op : Op) (env : Env) (bag : Bag) (r : Response)
    (h : (runOp op env bag).result = .ok r) :
    isObj r.body = true ∧
    (r.statusCode = 400 → hasKeyB r.body "timestamp" = false) ∧
    (r.statusCode ≠ 400 → hasKeyB r.body "timestamp" = true) := by
  cases op <;>
    simp only [runOp, handleMcpFiscalAdvice, handleMcpGenerateEmbedding,
      handleMcpCreateEmbedding, handleMcpStoreDocument,
      handleMcpSearchSimilarDocuments, handleMcpStoreDocumentChunk,
      handleMcpSearchSimilarChunks, handleMcpChatWithClassroom,
      handleMcpGetClassroomInfo, handleMcpProfessorAssistant,
      handleMcpGenerateResources, handleMcpAnalyzeUserContext, wrapCall] at h <;>
    (iterate 10 (all_goals try split at h)) <;>
    first
      | (exfalso; revert h; simp [retNoCall]; done)
      | (simp only [retNoCall, Except.ok.injEq] at h
         subst h
         simp [hasKeyB, fieldD, getB, isUndef, isObj])

/-- Counterexample to claim C2: a 400 validation response carries no
timestamp (classroom-info with no parameters), and neither does the
OPTIONS preflight response. -/
theorem c2_counterexample :
    (lambdaHandler envOk [("path", JVal.str "/classroom-info")]).resp.statusCode = 400 ∧
    hasKeyB (lambdaHandler envOk [("path", JVal.str "/classroom-info")]).bodyVal
      "timestamp" = false ∧
    (lambdaHandler envOk [("httpMethod", JVal.str "OPTIONS")]).resp.statusCode = 200 ∧
    hasKeyB (lambdaHandler envOk [("httpMethod", JVal.str "OPTIONS")]).bodyVal
      "timestamp" = false :=
  ⟨rfl, rfl, rfl, rfl⟩

/-- Claim C2 as amended: every response is serialized JSON of an object
body; a timestamp is carried by every response except the OPTIONS
preflight reply and the 400 validation responses, which never carry
one. -/
theorem c2_response_json_timestamp (env : Env) (ev : Bag) :
    isObj (lambdaHandler env ev).bodyVal = true ∧
    (lambdaHandler env ev).resp.body = jsonStringify (lambdaHandler env ev).bodyVal ∧
    ((lambdaHandler env ev).resp.statusCode = 400 →
      hasKeyB (lambdaHandler env ev).bodyVal "timestamp" = false) ∧
    (optionsCheck ev = false → (lambdaHandler env ev).resp.statusCode ≠ 400 →
      hasKeyB (lambdaHandler env ev).bodyVal "timestamp" = true) := by
  simp only [lambdaHandler]
  split
  · rename_i hopt
    refine ⟨rfl, rfl, fun h400 => by simp [mkOut, createResponse] at h400,
      fun hof _ => absurd hopt (by simp [hof])⟩
  · split
    · simp [mkOut, createResponse, catch500Body, hasKeyB, fieldD, getB, isUndef, isObj]
    · split
      · simp [mkOut, createResponse, catch500Body, hasKeyB, fieldD, getB, isUndef, isObj]
      · rcases dispatchEndpoint_cases env ev _ _ with ⟨op, _, heq⟩ | heq | heq | heq
        · rw [heq]
          simp only [runOpOut]
          split
          · rename_i r hr
            exact ⟨(runOp_bodyShape _ _ _ _ hr).1, rfl,
              (runOp_bodyShape _ _ _ _ hr).2.1,
              fun _ => (runOp_bodyShape _ _ _ _ hr).2.2⟩
          · simp [mkOut, createResponse, catch500Body, hasKeyB, fieldD, getB,
              isUndef, isObj]
        · rw [heq]
          simp [mkOut, createResponse, hasKeyB, fieldD, getB, isUndef, isObj, healthBody]
        · rw [heq]
          simp [mkOut, createResponse, hasKeyB, fieldD, getB, isUndef, isObj, infoBody]
        · rw [heq]
          simp [mkOut, createResponse, hasKeyB, fieldD, getB, isUndef, isObj,
            notFoundBody, jsOr, optGet]

/-- Witness for c2_response_json_timestamp: the health response under the
fixture environment carries a timestamp. -/
theorem c2_response_json_timestamp_witness :
    hasKeyB (lambdaHandler envOk [("path", JVal.str "/health")]).bodyVal "timestamp" = true :=
  (c2_response_json_timestamp envOk [("path", JVal.str "/health")]).2.2.2 rfl (by decide)

/-- Witness for c8_envelope_construction at the chat-with-classroom
operation on a concrete bag. -/
theorem c8_envelope_construction_witness :
    envelopeOk envOk Op.chatWithClassroom
      (mcpHttpReq envOk "chat_with_classroom_assistant"
        (.obj [("request", .obj
          [("message", .str "hi"), ("classroom_id", .str "c1"),
           ("user_id", .null), ("session_id", .null)])])) :=
  c8_envelope_construction Op.chatWithClassroom envOk
    [("message", JVal.str "hi"), ("classroom_id", JVal.str "c1")]
    (mcpHttpReq envOk "chat_with_classroom_assistant"
      (.obj [("request", .obj
        [("message", .str "hi"), ("classroom_id", .str "c1"),
         ("user_id", .null), ("session_id", .null)])]))
    [] rfl

end EstudIA
